import Mathlib

/-!
Verification of the lumitorch/ci-infra Pulumi program.

The program (`__main__.py` plus the per-layer modules under `pulumi_arc/`,
`pulumi_ali/`, `pulumi_arc_gcp/`, `pulumi_ali_gcp/`, `pulumi_shared_gcp/`)
is shallowly embedded below:

* `Config` is the typed view of the Pulumi configuration keys the program
  reads; each field is `Option`-valued (`none` = key absent).  Configuration
  keys that are read but only flow into opaque resource properties (chart
  versions, AMI filters, CIDR sizes, ...) never reach an export or a branch
  condition and are not represented.
* `Value` is the type of exported values.  `Value.deferred tag` stands for a
  value that is not inspected by any property: an asynchronously resolved
  resource attribute (a Pulumi `Output`) or an untracked structured constant;
  the tag records which source value it is.
* Each Python `deploy()` function becomes a Lean function returning
  `Except Err (exports × outputs)`: the Pulumi exports it publishes and the
  layer-output dictionary it returns.  A `require`d configuration key that is
  absent raises `Err.configMissing`; a missing dictionary key raises
  `Err.keyError`; every failure of the external backend (missing cloud
  credentials, rejected declaration, ...) is modelled by a per-invocation
  boolean in `FailureSpec` and raises `Err.backendFail`.
* `runList` is the module body of `__main__.py`: the ordered list of
  key/value pairs passed to `pulumi.export` during one execution, and `run`
  wraps it in `Except` to record that no exception escapes the module body
  (each fallible `deploy()` call occurs inside one of the `try/except`
  blocks, which the block functions model by matching on the `Except`
  result).
-/

namespace CiInfra

/-- Exported values.  `deferred tag` is a value the claims never inspect
(a not-yet-resolved resource attribute or an untracked constant). -/
inductive Value where
  | str : String → Value
  | bool : Bool → Value
  | num : Nat → Value
  | pyNone : Value
  | deferred : String → Value
  | dict : List (String × Value) → Value
  | listV : List Value → Value

/-- One `pulumi.export(key, value)` call. -/
abbrev Export := String × Value

/-- Exceptions a layer invocation can raise. -/
inductive Err where
  | configMissing : String → Err
  | keyError : String → Err
  | backendFail : String → Err

/-- Typed view of the Pulumi configuration read by the program
(`__main__.py` lines 24-34 and the per-layer `config.get`/`require` calls). -/
structure Config where
  cloud_provider : Option String := none
  deploy_arc : Option Bool := none
  deploy_ali : Option Bool := none
  deploy_argocd : Option Bool := none
  deploy_arc_gcp : Option Bool := none
  deploy_ali_gcp : Option Bool := none
  deploy_argocd_gcp : Option Bool := none
  aws_region : Option String := none
  gcp_project : Option String := none
  gcp_region : Option String := none
  arc_prod_environment : Option String := none
  arc_prod_environment_gcp : Option String := none
  ali_prod_environment : Option String := none
  ali_canary_environment : Option String := none
  ali_prod_environment_gcp : Option String := none
  ali_canary_environment_gcp : Option String := none
  aws_vpc_suffixes : Option (List String) := none
  aws_canary_vpc_suffixes : Option (List String) := none
  gcp_vpc_suffixes : Option (List String) := none
  gcp_canary_vpc_suffixes : Option (List String) := none
  argocd_namespace : Option String := none
  argocd_ingress_host_gcp : Option String := none

/-- Which `deploy()` invocations the external backend makes fail
(missing credentials, rejected declarations...).  One boolean per
fallible invocation site in `__main__.py`. -/
structure FailureSpec where
  arcInfra : Bool := false
  arcHelm : Bool := false
  arcArgocd : Bool := false
  ali : Bool := false
  arcInfraGcp : Bool := false
  arcHelmGcp : Bool := false
  arcArgocdGcp : Bool := false
  aliGcp : Bool := false
  sharedGcp : Bool := false

/-- Python `config.get(k) or default` on a string key: `None` and the empty
string are falsy. -/
def pyOrStr : Option String → String → String
  | none, d => d
  | some s, d => if s = "" then d else s

/-- Python `config.get_bool(k) or False`. -/
def pyOrBool : Option Bool → Bool
  | none => false
  | some b => b

/-- Python `config.get_object(k) or default` on a list key: `None` and the
empty list are falsy. -/
def pyOrList : Option (List String) → List String → List String
  | none, d => d
  | some l, d => if l = [] then d else l

/-- Python `config.require(k)`: raises `ConfigMissingError` when absent. -/
def requireKey : Option String → String → Except Err String
  | none, key => .error (.configMissing key)
  | some s, _ => .ok s

/-- Python `d[k]` on a layer-output dictionary: raises `KeyError` when
absent. -/
def dictGet (d : List (String × Value)) (k : String) : Except Err Value :=
  match d.lookup k with
  | some v => .ok v
  | none => .error (.keyError k)

namespace arc_infra

/-- `pulumi_arc/infra/arc_infra.py` `deploy()`: requires `aws:region`,
then queries the caller identity and declares VPC/IAM/EKS resources
(modelled by the failure flag), publishes four exports (lines 159-162)
and returns the outputs dictionary (lines 142-156). -/
def deploy (c : Config) (fail : Bool) :
    Except Err (List Export × List (String × Value)) := do
  let aws_region ← requireKey c.aws_region "aws:region"
  if fail then throw (Err.backendFail "aws")
  let arc_prod_environment := pyOrStr c.arc_prod_environment "lf-arc-prod"
  let outputs : List (String × Value) :=
    [("vpc_id", .deferred "arc.vpc.vpc_id"),
     ("vpc_cidr", .deferred "arc.vpc.cidr_block"),
     ("private_subnet_ids", .deferred "arc.vpc.private_subnet_ids"),
     ("public_subnet_ids", .deferred "arc.vpc.public_subnet_ids"),
     ("eks_cluster", .deferred "arc.eks_cluster"),
     ("eks_cluster_name", .deferred "arc.eks_cluster.name"),
     ("eks_cluster_endpoint", .deferred "arc.eks_cluster.endpoint"),
     ("eks_cluster_certificate_authority",
       .deferred "arc.eks_cluster.certificate_authority"),
     ("eks_oidc_provider", .deferred "arc.eks_cluster.oidc_provider"),
     ("pytorch_ci_admins_role_arn", .deferred "arc.pytorch_ci_admins_role.arn"),
     ("aws_account_id", .deferred "aws.caller_identity.account_id"),
     ("aws_region", .str aws_region),
     ("arc_prod_environment", .str arc_prod_environment)]
  let ex : List Export :=
    [("arc_vpc_id", .deferred "arc.vpc.vpc_id"),
     ("arc_eks_cluster_name", .deferred "arc.eks_cluster.name"),
     ("arc_eks_cluster_endpoint", .deferred "arc.eks_cluster.endpoint"),
     ("arc_pytorch_ci_admins_role_arn",
       .deferred "arc.pytorch_ci_admins_role.arn")]
  return (ex, outputs)

end arc_infra

namespace arc_helm

/-- `pulumi_arc/helm/arc_helm.py` `deploy(infra_outputs)`: reads six keys
of the infra outputs, declares the Kubernetes/Helm resources (failure
flag), publishes five exports (lines 258-262) and returns the merged
outputs (lines 247-255). -/
def deploy (c : Config) (infra_outputs : List (String × Value)) (fail : Bool) :
    Except Err (List Export × List (String × Value)) := do
  let argocd_namespace := pyOrStr c.argocd_namespace "argocd"
  let _eks_cluster ← dictGet infra_outputs "eks_cluster"
  let _cluster_name ← dictGet infra_outputs "eks_cluster_name"
  let _cluster_endpoint ← dictGet infra_outputs "eks_cluster_endpoint"
  let _cluster_ca ← dictGet infra_outputs "eks_cluster_certificate_authority"
  let _oidc ← dictGet infra_outputs "eks_oidc_provider"
  let _vpc_id ← dictGet infra_outputs "vpc_id"
  if fail then throw (Err.backendFail "k8s")
  let outputs : List (String × Value) :=
    infra_outputs ++
    [("k8s_provider", .deferred "arc.k8s_provider"),
     ("argocd_namespace", .str argocd_namespace),
     ("arc_namespace", .str "arc-system"),
     ("nginx_ingress_namespace", .str "ingress-nginx"),
     ("cert_manager_namespace",
       .deferred "arc.cert_manager_namespace.metadata.name")]
  let ex : List Export :=
    [("arc_argocd_namespace", .str argocd_namespace),
     ("arc_arc_namespace", .str "arc-system"),
     ("arc_nginx_ingress_installed", .bool true),
     ("arc_argocd_installed", .bool true),
     ("arc_controller_installed", .bool true)]
  return (ex, outputs)

end arc_helm

namespace arc_argocd

/-- `pulumi_arc/argocd/arc_argocd.py` `deploy(helm_outputs)`: reads the
provider and namespace from the helm outputs, fetches GitHub-app secrets
and declares the runner scale-set resources (failure flag), publishes two
exports (lines 198-199) and returns the merged outputs. -/
def deploy (c : Config) (helm_outputs : List (String × Value)) (fail : Bool) :
    Except Err (List Export × List (String × Value)) := do
  let _k8s ← dictGet helm_outputs "k8s_provider"
  let _ns ← dictGet helm_outputs "argocd_namespace"
  if fail then throw (Err.backendFail "aws secretsmanager")
  have _ := c
  let outputs : List (String × Value) :=
    helm_outputs ++
    [("runner_namespaces", .listV [.deferred "arc.namespaces.aws.metadata.name"]),
     ("application_set_name", .deferred "arc.application_set.metadata.name")]
  let ex : List Export :=
    [("arc_runner_namespaces",
       .listV [.deferred "arc.namespaces.aws.metadata.name"]),
     ("arc_application_set_created", .bool true)]
  return (ex, outputs)

end arc_argocd

namespace ali_infra

/-- `pulumi_ali/ali_infra.py` `deploy()`: requires `aws:region`, declares
per-suffix VPCs, a peering connection, a canary VPC and the IAM resources
(failure flag), publishes three or four exports (lines 277-281) and
returns the outputs dictionary (lines 262-274). -/
def deploy (c : Config) (fail : Bool) :
    Except Err (List Export × List (String × Value)) := do
  let aws_region ← requireKey c.aws_region "aws:region"
  if fail then throw (Err.backendFail "aws")
  let ali_prod_environment := pyOrStr c.ali_prod_environment "ghci-lf"
  let ali_canary_environment := pyOrStr c.ali_canary_environment "ghci-lf-c"
  let aws_vpc_suffixes := pyOrList c.aws_vpc_suffixes ["I", "II"]
  let aws_canary_vpc_suffixes := pyOrList c.aws_canary_vpc_suffixes ["I"]
  let outputs : List (String × Value) :=
    [("prod_vpcs",
       .dict (aws_vpc_suffixes.map (fun s => (s, Value.deferred ("ali.vpc." ++ s))))),
     ("canary_vpc",
       if aws_canary_vpc_suffixes = [] then Value.pyNone
       else Value.deferred "ali.canary_vpc"),
     ("ossci_gha_terraform_role_arn", .deferred "ali.ossci_gha_terraform_role.arn"),
     ("ecr_policy_arn", .deferred "ali.ecr_policy.arn"),
     ("docker_hub_policy_arn", .deferred "ali.docker_hub_policy.arn"),
     ("sccache_policy_arn", .deferred "ali.sccache_policy.arn"),
     ("lambda_policy_arn", .deferred "ali.lambda_policy.arn"),
     ("aws_account_id", .deferred "aws.caller_identity.account_id"),
     ("aws_region", .str aws_region),
     ("ali_prod_environment", .str ali_prod_environment),
     ("ali_canary_environment", .str ali_canary_environment)]
  let ex : List Export :=
    ("ali_prod_vpc_ids",
      Value.dict (aws_vpc_suffixes.map
        (fun s => (s, Value.deferred ("ali.vpc." ++ s ++ ".vpc_id")))))
    :: ((if aws_canary_vpc_suffixes = [] then []
         else [("ali_canary_vpc_id", Value.deferred "ali.canary_vpc.vpc_id")])
        ++ [("ali_ossci_gha_terraform_role_arn",
              .deferred "ali.ossci_gha_terraform_role.arn"),
            ("ali_ecr_policy_arn", .deferred "ali.ecr_policy.arn")])
  return (ex, outputs)

end ali_infra

namespace arc_infra_gcp

/-- The outputs dictionary of `pulumi_arc_gcp/infra/arc_infra_gcp.py`
(lines 275-290), parameterised by the three configuration-derived
strings that appear in it. -/
def outputsList (gcp_project gcp_region arc_env : String) :
    List (String × Value) :=
  [("gke_cluster", .deferred "arc_gcp.gke_cluster"),
   ("gke_cluster_name", .deferred "arc_gcp.gke_cluster.name"),
   ("gke_cluster_endpoint", .deferred "arc_gcp.gke_cluster.endpoint"),
   ("gke_cluster_ca_certificate",
     .deferred "arc_gcp.gke_cluster.master_auth.cluster_ca_certificate"),
   ("vpc_network_id", .deferred "arc_gcp.vpc_network.id"),
   ("vpc_network_name", .deferred "arc_gcp.vpc_network.name"),
   ("subnetwork_id", .deferred "arc_gcp.subnetwork.id"),
   ("subnetwork_name", .deferred "arc_gcp.subnetwork.name"),
   ("gke_node_sa_email", .deferred "arc_gcp.gke_node_sa.email"),
   ("pytorch_ci_admins_sa_email", .deferred "arc_gcp.pytorch_ci_admins_sa.email"),
   ("workload_identity_pool", .str (gcp_project ++ ".svc.id.goog")),
   ("kubeconfig", .deferred "arc_gcp.kubeconfig"),
   ("gcp_project", .str gcp_project),
   ("gcp_region", .str gcp_region),
   ("arc_environment", .str arc_env)]

/-- `pulumi_arc_gcp/infra/arc_infra_gcp.py` `deploy()`: requires
`gcp:project`, declares the network/GKE/IAM resources (failure flag) and
exports every outputs entry under an `arc_gcp_` prefix (line 296). -/
def deploy (c : Config) (fail : Bool) :
    Except Err (List Export × List (String × Value)) := do
  let gcp_project ← requireKey c.gcp_project "gcp:project"
  let gcp_region := pyOrStr c.gcp_region "us-central1"
  if fail then throw (Err.backendFail "gcp")
  let arc_prod_environment := pyOrStr c.arc_prod_environment_gcp "lf-arc-prod-gcp"
  let outputs := outputsList gcp_project gcp_region arc_prod_environment
  return (outputs.map (fun kv => ("arc_gcp_" ++ kv.1, kv.2)), outputs)

end arc_infra_gcp

namespace arc_helm_gcp

/-- `pulumi_arc_gcp/helm/arc_helm_gcp.py` `deploy(infra_outputs)`: reads
six keys of the infra outputs, declares the Kubernetes/Helm resources
(failure flag) and exports every outputs entry except `k8s_provider`
under an `arc_gcp_helm_` prefix (lines 268-270). -/
def deploy (c : Config) (infra_outputs : List (String × Value)) (fail : Bool) :
    Except Err (List Export × List (String × Value)) := do
  let argocd_namespace := pyOrStr c.argocd_namespace "argocd"
  let argocd_ingress_host := pyOrStr c.argocd_ingress_host_gcp "argocd-gcp.pytorch.org"
  let _g1 ← dictGet infra_outputs "gke_cluster"
  let _g2 ← dictGet infra_outputs "gke_cluster_name"
  let _g3 ← dictGet infra_outputs "gke_cluster_endpoint"
  let _g4 ← dictGet infra_outputs "gke_cluster_ca_certificate"
  let _kubeconfig ← dictGet infra_outputs "kubeconfig"
  let _gcp_project ← dictGet infra_outputs "gcp_project"
  if fail then throw (Err.backendFail "k8s")
  let outputs : List (String × Value) :=
    [("cert_manager_namespace",
       .deferred "arc_gcp.cert_manager_namespace.metadata.name"),
     ("nginx_namespace", .deferred "arc_gcp.nginx_namespace.metadata.name"),
     ("argocd_namespace", .str argocd_namespace),
     ("arc_namespace", .deferred "arc_gcp.arc_namespace.metadata.name"),
     ("argocd_url", .str ("https://" ++ argocd_ingress_host)),
     ("k8s_provider", .deferred "arc_gcp.k8s_provider")]
  let ex : List Export :=
    (outputs.filter (fun kv => kv.1 != "k8s_provider")).map
      (fun kv => ("arc_gcp_helm_" ++ kv.1, kv.2))
  return (ex, outputs)

end arc_helm_gcp

namespace arc_argocd_gcp

/-- The four runner scale-set names of
`pulumi_arc_gcp/argocd/arc_argocd_gcp.py` (lines 31-60). -/
def runnerNames : List String :=
  ["linux-amd64-cpu", "linux-amd64-gpu", "linux-arm64-cpu", "windows-amd64"]

/-- `pulumi_arc_gcp/argocd/arc_argocd_gcp.py` `deploy(helm_outputs)`:
reads the provider and namespace from the helm outputs, declares the
ArgoCD applications and config map (failure flag) and exports every
outputs entry under an `arc_gcp_argocd_` prefix (line 198). -/
def deploy (c : Config) (helm_outputs : List (String × Value)) (fail : Bool) :
    Except Err (List Export × List (String × Value)) := do
  let _k8s ← dictGet helm_outputs "k8s_provider"
  let _ns ← dictGet helm_outputs "argocd_namespace"
  if fail then throw (Err.backendFail "k8s")
  have _ := c
  let outputs : List (String × Value) :=
    [("argocd_apps", .listV (runnerNames.map (fun n => .str ("arc-runner-" ++ n)))),
     ("app_project", .str "arc-runners"),
     ("runners_namespace", .str "arc-runners"),
     ("runner_config_map", .str "runner-configs"),
     ("runner_configs", .deferred "arc_gcp.runner_configs")]
  return (outputs.map (fun kv => ("arc_gcp_argocd_" ++ kv.1, kv.2)), outputs)

end arc_argocd_gcp

namespace ali_infra_gcp

/-- `pulumi_ali_gcp/ali_infra_gcp.py` `deploy()`: requires `gcp:project`,
declares per-suffix networks, peerings, a canary network and the service
accounts (failure flag) and exports the outputs under an `ali_gcp_`
prefix, expanding the `prod_vpcs` and `prod_subnets` dictionaries to one
export per suffix (lines 317-322). -/
def deploy (c : Config) (fail : Bool) :
    Except Err (List Export × List (String × Value)) := do
  let gcp_project ← requireKey c.gcp_project "gcp:project"
  let gcp_region := pyOrStr c.gcp_region "us-central1"
  if fail then throw (Err.backendFail "gcp")
  let ali_prod_environment := pyOrStr c.ali_prod_environment_gcp "ghci-lf-gcp"
  let ali_canary_environment := pyOrStr c.ali_canary_environment_gcp "ghci-lf-c-gcp"
  let gcp_vpc_suffixes := pyOrList c.gcp_vpc_suffixes ["I", "II"]
  let gcp_canary_vpc_suffixes := pyOrList c.gcp_canary_vpc_suffixes ["I"]
  let outputs : List (String × Value) :=
    [("prod_vpcs",
       .dict (gcp_vpc_suffixes.map (fun s => (s, Value.deferred ("ali_gcp.vpc." ++ s))))),
     ("prod_subnets",
       .dict (gcp_vpc_suffixes.map (fun s => (s, Value.deferred ("ali_gcp.subnet." ++ s))))),
     ("canary_vpc",
       if gcp_canary_vpc_suffixes = [] then Value.pyNone
       else Value.deferred "ali_gcp.canary_vpc"),
     ("canary_subnet",
       if gcp_canary_vpc_suffixes = [] then Value.pyNone
       else Value.deferred "ali_gcp.canary_subnet"),
     ("github_actions_sa_email", .deferred "ali_gcp.github_actions_sa.email"),
     ("workload_identity_pool", .deferred "ali_gcp.workload_identity_pool.name"),
     ("workload_identity_provider",
       .deferred "ali_gcp.workload_identity_provider.name"),
     ("autoscaler_sa_email", .deferred "ali_gcp.autoscaler_sa.email"),
     ("artifact_registry_sa_email", .deferred "ali_gcp.artifact_registry_sa.email"),
     ("storage_sa_email", .deferred "ali_gcp.storage_sa.email"),
     ("functions_sa_email", .deferred "ali_gcp.functions_sa.email"),
     ("sccache_bucket", .deferred "ali_gcp.sccache_bucket.name"),
     ("gcp_project", .str gcp_project),
     ("gcp_region", .str gcp_region),
     ("ali_prod_environment", .str ali_prod_environment),
     ("ali_canary_environment", .str ali_canary_environment)]
  let ex : List Export :=
    (gcp_vpc_suffixes.map
      (fun s => ("ali_gcp_prod_vpcs_" ++ s, Value.deferred ("ali_gcp.vpc." ++ s))))
    ++ (gcp_vpc_suffixes.map
      (fun s => ("ali_gcp_prod_subnets_" ++ s, Value.deferred ("ali_gcp.subnet." ++ s))))
    ++ [("ali_gcp_canary_vpc",
          if gcp_canary_vpc_suffixes = [] then Value.pyNone
          else Value.deferred "ali_gcp.canary_vpc"),
        ("ali_gcp_canary_subnet",
          if gcp_canary_vpc_suffixes = [] then Value.pyNone
          else Value.deferred "ali_gcp.canary_subnet"),
        ("ali_gcp_github_actions_sa_email", .deferred "ali_gcp.github_actions_sa.email"),
        ("ali_gcp_workload_identity_pool",
          .deferred "ali_gcp.workload_identity_pool.name"),
        ("ali_gcp_workload_identity_provider",
          .deferred "ali_gcp.workload_identity_provider.name"),
        ("ali_gcp_autoscaler_sa_email", .deferred "ali_gcp.autoscaler_sa.email"),
        ("ali_gcp_artifact_registry_sa_email",
          .deferred "ali_gcp.artifact_registry_sa.email"),
        ("ali_gcp_storage_sa_email", .deferred "ali_gcp.storage_sa.email"),
        ("ali_gcp_functions_sa_email", .deferred "ali_gcp.functions_sa.email"),
        ("ali_gcp_sccache_bucket", .deferred "ali_gcp.sccache_bucket.name"),
        ("ali_gcp_gcp_project", .str gcp_project),
        ("ali_gcp_gcp_region", .str gcp_region),
        ("ali_gcp_ali_prod_environment", .str ali_prod_environment),
        ("ali_gcp_ali_canary_environment", .str ali_canary_environment)]
  return (ex, outputs)

end ali_infra_gcp

namespace backend_state_gcp

/-- `pulumi_shared_gcp/backend_state_gcp.py` `deploy()`: requires
`gcp:project`, declares the state/backup/artifacts/logs buckets, the
Firestore database and a service account (failure flag) and exports the
outputs under a `shared_gcp_` prefix (lines 227-228). -/
def deploy (c : Config) (fail : Bool) :
    Except Err (List Export × List (String × Value)) := do
  let gcp_project ← requireKey c.gcp_project "gcp:project"
  let gcp_region := pyOrStr c.gcp_region "us-central1"
  if fail then throw (Err.backendFail "gcp")
  let outputs : List (String × Value) :=
    [("state_bucket_name", .deferred "shared_gcp.state_bucket.name"),
     ("state_bucket_url", .deferred "shared_gcp.state_bucket.url"),
     ("backup_bucket_name", .deferred "shared_gcp.backup_bucket.name"),
     ("backup_bucket_url", .deferred "shared_gcp.backup_bucket.url"),
     ("artifacts_bucket_name", .deferred "shared_gcp.artifacts_bucket.name"),
     ("artifacts_bucket_url", .deferred "shared_gcp.artifacts_bucket.url"),
     ("logs_bucket_name", .deferred "shared_gcp.logs_bucket.name"),
     ("logs_bucket_url", .deferred "shared_gcp.logs_bucket.url"),
     ("firestore_database_name", .deferred "shared_gcp.firestore_database.name"),
     ("state_management_sa_email", .deferred "shared_gcp.state_management_sa.email"),
     ("gcp_project", .str gcp_project),
     ("gcp_region", .str gcp_region)]
  return (outputs.map (fun kv => ("shared_gcp_" ++ kv.1, kv.2)), outputs)

end backend_state_gcp

/-! ## The Stack Composer: `__main__.py` -/

/-- The `infrastructure_components` catalog (`__main__.py` lines 41-102),
parameterised by the deployment flags it embeds. -/
def infrastructureComponents (deploy_arc deploy_ali deploy_arc_gcp deploy_ali_gcp : Bool) :
    Value :=
  .dict
    [("aws", .dict
       [("arc", .dict
          [("enabled", .bool deploy_arc),
           ("components", .listV
             [.str "VPC with public/private subnets",
              .str "EKS cluster (lf-arc-dev)",
              .str "IAM roles for cluster admins",
              .str "NGINX Ingress Controller",
              .str "Cert-Manager with Let\x27s Encrypt",
              .str "ArgoCD for GitOps",
              .str "GitHub Actions Runner Controller",
              .str "Runner Scale Sets"])]),
        ("ali", .dict
          [("enabled", .bool deploy_ali),
           ("components", .listV
             [.str "Multiple VPCs with peering",
              .str "Lambda autoscaler for GitHub Actions",
              .str "IAM policies for ECR, S3, Lambda access",
              .str "GitHub OIDC role for CI/CD"])]),
        ("shared", .dict
          [("components", .listV
             [.str "S3 bucket for state storage",
              .str "DynamoDB table for state locking"])])]),
     ("gcp", .dict
       [("arc", .dict
          [("enabled", .bool deploy_arc_gcp),
           ("components", .listV
             [.str "VPC network with subnets",
              .str "GKE cluster (lf-arc-dev)",
              .str "Service accounts and IAM roles",
              .str "NGINX Ingress Controller",
              .str "Cert-Manager with Let\x27s Encrypt",
              .str "ArgoCD for GitOps",
              .str "GitHub Actions Runner Controller",
              .str "Runner Scale Sets"])]),
        ("ali", .dict
          [("enabled", .bool deploy_ali_gcp),
           ("components", .listV
             [.str "Multiple VPC networks with peering",
              .str "Cloud Functions autoscaler for GitHub Actions",
              .str "IAM policies for Artifact Registry, Cloud Storage access",
              .str "Workload Identity Federation for GitHub Actions"])]),
        ("shared", .dict
          [("components", .listV
             [.str "Cloud Storage buckets for state storage",
              .str "Firestore for state locking"])])])]

/-- The `summary` export text (`__main__.py` lines 189-232), abbreviated to
its first line; no property inspects its content, only the `summary` key. -/
def summaryText : String :=
  "\nPyTorch CI Infrastructure - Pulumi Migration Complete with Multi-Cloud Support\n"

/-- The three unconditional exports at the top of the module body
(`__main__.py` lines 37, 38 and 104). -/
def headExports (c : Config) : List Export :=
  [("migration_status",
     .str "Terraform to Pulumi migration completed with AWS and GCP support"),
   ("cloud_provider", .str (pyOrStr c.cloud_provider "aws")),
   ("infrastructure_components",
     infrastructureComponents (pyOrBool c.deploy_arc) (pyOrBool c.deploy_ali)
       (pyOrBool c.deploy_arc_gcp) (pyOrBool c.deploy_ali_gcp))]

/-- The `try/except` block around the AWS ARC chain (`__main__.py` lines
109-128): layer 1 (infra), layer 2 (helm), optionally layer 3 (argocd);
on any exception the exports already published stay and the single
diagnostic note is appended. -/
def arcBlock (c : Config) (f : FailureSpec) (deploy_argocd : Bool) : List Export :=
  match arc_infra.deploy c f.arcInfra with
  | .error _ => [("arc_deployment_note", .str "ARC deployment requires AWS credentials")]
  | .ok (x1, out1) =>
    let acc1 := x1 ++ [("arc_infrastructure_deployed", .bool true)]
    match arc_helm.deploy c out1 f.arcHelm with
    | .error _ =>
        acc1 ++ [("arc_deployment_note", .str "ARC deployment requires AWS credentials")]
    | .ok (x2, out2) =>
      let acc2 := acc1 ++ x2 ++ [("arc_helm_deployed", .bool true)]
      if deploy_argocd then
        match arc_argocd.deploy c out2 f.arcArgocd with
        | .error _ =>
            acc2 ++ [("arc_deployment_note", .str "ARC deployment requires AWS credentials")]
        | .ok (x3, _out3) =>
            acc2 ++ x3 ++ [("arc_argocd_deployed", .bool true)]
      else acc2

/-- The `try/except` block around the AWS ALI deployment (`__main__.py`
lines 131-139). -/
def aliBlock (c : Config) (f : FailureSpec) : List Export :=
  match ali_infra.deploy c f.ali with
  | .error _ => [("ali_deployment_note", .str "ALI deployment requires AWS credentials")]
  | .ok (x, _out) => x ++ [("ali_infrastructure_deployed", .bool true)]

/-- The `try/except` block around the GCP ARC chain (`__main__.py` lines
144-163). -/
def arcGcpBlock (c : Config) (f : FailureSpec) (deploy_argocd_gcp : Bool) : List Export :=
  match arc_infra_gcp.deploy c f.arcInfraGcp with
  | .error _ =>
      [("arc_gcp_deployment_note", .str "ARC GCP deployment requires GCP credentials")]
  | .ok (x1, out1) =>
    let acc1 := x1 ++ [("arc_gcp_infrastructure_deployed", .bool true)]
    match arc_helm_gcp.deploy c out1 f.arcHelmGcp with
    | .error _ =>
        acc1 ++ [("arc_gcp_deployment_note", .str "ARC GCP deployment requires GCP credentials")]
    | .ok (x2, out2) =>
      let acc2 := acc1 ++ x2 ++ [("arc_gcp_helm_deployed", .bool true)]
      if deploy_argocd_gcp then
        match arc_argocd_gcp.deploy c out2 f.arcArgocdGcp with
        | .error _ =>
            acc2 ++ [("arc_gcp_deployment_note", .str "ARC GCP deployment requires GCP credentials")]
        | .ok (x3, _out3) =>
            acc2 ++ x3 ++ [("arc_gcp_argocd_deployed", .bool true)]
      else acc2

/-- The `try/except` block around the GCP ALI deployment (`__main__.py`
lines 166-174). -/
def aliGcpBlock (c : Config) (f : FailureSpec) : List Export :=
  match ali_infra_gcp.deploy c f.aliGcp with
  | .error _ =>
      [("ali_gcp_deployment_note", .str "ALI GCP deployment requires GCP credentials")]
  | .ok (x, _out) => x ++ [("ali_gcp_infrastructure_deployed", .bool true)]

/-- The `try/except` block around the shared GCP state deployment
(`__main__.py` lines 178-186). -/
def sharedGcpBlock (c : Config) (f : FailureSpec) : List Export :=
  match backend_state_gcp.deploy c f.sharedGcp with
  | .error _ =>
      [("shared_gcp_deployment_note", .str "Shared GCP deployment requires GCP credentials")]
  | .ok (x, _out) => x ++ [("shared_gcp_infrastructure_deployed", .bool true)]

/-- The exports of the AWS section (`__main__.py` lines 107-139): the two
blocks run only when the provider branch and their flags select them. -/
def awsExports (c : Config) (f : FailureSpec) : List Export :=
  if pyOrStr c.cloud_provider "aws" = "aws" ∨ pyOrStr c.cloud_provider "aws" = "both" then
    (if pyOrBool c.deploy_arc then arcBlock c f (pyOrBool c.deploy_argocd) else [])
    ++ (if pyOrBool c.deploy_ali then aliBlock c f else [])
  else []

/-- The exports of the GCP section (`__main__.py` lines 142-186). -/
def gcpExports (c : Config) (f : FailureSpec) : List Export :=
  if pyOrStr c.cloud_provider "aws" = "gcp" ∨ pyOrStr c.cloud_provider "aws" = "both" then
    (if pyOrBool c.deploy_arc_gcp then arcGcpBlock c f (pyOrBool c.deploy_argocd_gcp) else [])
    ++ (if pyOrBool c.deploy_ali_gcp then aliGcpBlock c f else [])
    ++ (if pyOrBool c.deploy_arc_gcp ∨ pyOrBool c.deploy_ali_gcp then sharedGcpBlock c f else [])
  else []

/-- All `pulumi.export` calls one execution of the module body makes, in
order. -/
def runList (c : Config) (f : FailureSpec) : List Export :=
  headExports c ++ awsExports c f ++ gcpExports c f ++
    [("summary", .str summaryText)]

/-- The whole module body of `__main__.py`.  Outside the `try/except`
blocks (which are inside the block functions) no statement can raise, so
the embedded body always returns its export list. -/
def run (c : Config) (f : FailureSpec) : Except Err (List Export) :=
  .ok (runList c f)

/-! ## Derived control-flow characterisation -/

/-- The fallible `deploy()` invocation sites of `__main__.py`, one per
layer of each provider chain. -/
inductive Layer where
  | arcInfraL | arcHelmL | arcArgocdL | aliL
  | arcInfraGcpL | arcHelmGcpL | arcArgocdGcpL | aliGcpL | sharedGcpL
deriving DecidableEq, Repr

/-- Whether the AWS section runs (`cloud_provider == "aws" or "both"`). -/
def providerAws (c : Config) : Bool :=
  pyOrStr c.cloud_provider "aws" == "aws" || pyOrStr c.cloud_provider "aws" == "both"

/-- Whether the GCP section runs (`cloud_provider == "gcp" or "both"`). -/
def providerGcp (c : Config) : Bool :=
  pyOrStr c.cloud_provider "aws" == "gcp" || pyOrStr c.cloud_provider "aws" == "both"

/-- Whether the given layer's `deploy()` is invoked in the run `(c, f)`:
its provider branch and enablement flags select it and every earlier
layer of its block succeeded. -/
def invokedL (c : Config) (f : FailureSpec) : Layer → Bool
  | .arcInfraL => providerAws c && pyOrBool c.deploy_arc
  | .arcHelmL =>
      providerAws c && pyOrBool c.deploy_arc
        && !(c.aws_region.isNone || f.arcInfra)
  | .arcArgocdL =>
      providerAws c && pyOrBool c.deploy_arc
        && !(c.aws_region.isNone || f.arcInfra) && !f.arcHelm
        && pyOrBool c.deploy_argocd
  | .aliL => providerAws c && pyOrBool c.deploy_ali
  | .arcInfraGcpL => providerGcp c && pyOrBool c.deploy_arc_gcp
  | .arcHelmGcpL =>
      providerGcp c && pyOrBool c.deploy_arc_gcp
        && !(c.gcp_project.isNone || f.arcInfraGcp)
  | .arcArgocdGcpL =>
      providerGcp c && pyOrBool c.deploy_arc_gcp
        && !(c.gcp_project.isNone || f.arcInfraGcp) && !f.arcHelmGcp
        && pyOrBool c.deploy_argocd_gcp
  | .aliGcpL => providerGcp c && pyOrBool c.deploy_ali_gcp
  | .sharedGcpL =>
      providerGcp c && (pyOrBool c.deploy_arc_gcp || pyOrBool c.deploy_ali_gcp)

/-- Whether the given layer's `deploy()` invocation raises in the run
`(c, f)`: it is invoked and either its required configuration key is
absent or the backend makes it fail. -/
def raisesL (c : Config) (f : FailureSpec) : Layer → Bool
  | .arcInfraL => invokedL c f .arcInfraL && (c.aws_region.isNone || f.arcInfra)
  | .arcHelmL => invokedL c f .arcHelmL && f.arcHelm
  | .arcArgocdL => invokedL c f .arcArgocdL && f.arcArgocd
  | .aliL => invokedL c f .aliL && (c.aws_region.isNone || f.ali)
  | .arcInfraGcpL => invokedL c f .arcInfraGcpL && (c.gcp_project.isNone || f.arcInfraGcp)
  | .arcHelmGcpL => invokedL c f .arcHelmGcpL && f.arcHelmGcp
  | .arcArgocdGcpL => invokedL c f .arcArgocdGcpL && f.arcArgocdGcp
  | .aliGcpL => invokedL c f .aliGcpL && (c.gcp_project.isNone || f.aliGcp)
  | .sharedGcpL => invokedL c f .sharedGcpL && (c.gcp_project.isNone || f.sharedGcp)

/-- The `..._deployed` success-flag export key of each layer. -/
def deployedKey : Layer → String
  | .arcInfraL => "arc_infrastructure_deployed"
  | .arcHelmL => "arc_helm_deployed"
  | .arcArgocdL => "arc_argocd_deployed"
  | .aliL => "ali_infrastructure_deployed"
  | .arcInfraGcpL => "arc_gcp_infrastructure_deployed"
  | .arcHelmGcpL => "arc_gcp_helm_deployed"
  | .arcArgocdGcpL => "arc_gcp_argocd_deployed"
  | .aliGcpL => "ali_gcp_infrastructure_deployed"
  | .sharedGcpL => "shared_gcp_infrastructure_deployed"

/-- The diagnostic note key the enclosing `try/except` block publishes
when a layer of that block raises. -/
def noteKey : Layer → String
  | .arcInfraL => "arc_deployment_note"
  | .arcHelmL => "arc_deployment_note"
  | .arcArgocdL => "arc_deployment_note"
  | .aliL => "ali_deployment_note"
  | .arcInfraGcpL => "arc_gcp_deployment_note"
  | .arcHelmGcpL => "arc_gcp_deployment_note"
  | .arcArgocdGcpL => "arc_gcp_deployment_note"
  | .aliGcpL => "ali_gcp_deployment_note"
  | .sharedGcpL => "shared_gcp_deployment_note"

/-- The exports a layer's own successful `deploy()` publishes, followed by
its success flag, as the block publishes them.  A function of the
configuration alone: no failure of a later layer can change them. -/
def ownExports (c : Config) : Layer → List Export
  | .arcInfraL =>
      [("arc_vpc_id", .deferred "arc.vpc.vpc_id"),
       ("arc_eks_cluster_name", .deferred "arc.eks_cluster.name"),
       ("arc_eks_cluster_endpoint", .deferred "arc.eks_cluster.endpoint"),
       ("arc_pytorch_ci_admins_role_arn", .deferred "arc.pytorch_ci_admins_role.arn"),
       ("arc_infrastructure_deployed", .bool true)]
  | .arcHelmL =>
      [("arc_argocd_namespace", .str (pyOrStr c.argocd_namespace "argocd")),
       ("arc_arc_namespace", .str "arc-system"),
       ("arc_nginx_ingress_installed", .bool true),
       ("arc_argocd_installed", .bool true),
       ("arc_controller_installed", .bool true),
       ("arc_helm_deployed", .bool true)]
  | .arcArgocdL =>
      [("arc_runner_namespaces", .listV [.deferred "arc.namespaces.aws.metadata.name"]),
       ("arc_application_set_created", .bool true),
       ("arc_argocd_deployed", .bool true)]
  | .aliL =>
      (("ali_prod_vpc_ids",
         Value.dict ((pyOrList c.aws_vpc_suffixes ["I", "II"]).map
           (fun s => (s, Value.deferred ("ali.vpc." ++ s ++ ".vpc_id")))))
       :: ((if pyOrList c.aws_canary_vpc_suffixes ["I"] = [] then []
            else [("ali_canary_vpc_id", Value.deferred "ali.canary_vpc.vpc_id")])
           ++ [("ali_ossci_gha_terraform_role_arn",
                 .deferred "ali.ossci_gha_terraform_role.arn"),
               ("ali_ecr_policy_arn", .deferred "ali.ecr_policy.arn")]))
      ++ [("ali_infrastructure_deployed", .bool true)]
  | .arcInfraGcpL =>
      ((arc_infra_gcp.outputsList (pyOrStr c.gcp_project "")
          (pyOrStr c.gcp_region "us-central1")
          (pyOrStr c.arc_prod_environment_gcp "lf-arc-prod-gcp")).map
        (fun kv => ("arc_gcp_" ++ kv.1, kv.2)))
      ++ [("arc_gcp_infrastructure_deployed", .bool true)]
  | .arcHelmGcpL =>
      [("arc_gcp_helm_cert_manager_namespace",
         .deferred "arc_gcp.cert_manager_namespace.metadata.name"),
       ("arc_gcp_helm_nginx_namespace", .deferred "arc_gcp.nginx_namespace.metadata.name"),
       ("arc_gcp_helm_argocd_namespace", .str (pyOrStr c.argocd_namespace "argocd")),
       ("arc_gcp_helm_arc_namespace", .deferred "arc_gcp.arc_namespace.metadata.name"),
       ("arc_gcp_helm_argocd_url",
         .str ("https://" ++ pyOrStr c.argocd_ingress_host_gcp "argocd-gcp.pytorch.org")),
       ("arc_gcp_helm_deployed", .bool true)]
  | .arcArgocdGcpL =>
      [("arc_gcp_argocd_argocd_apps",
         .listV (arc_argocd_gcp.runnerNames.map (fun n => .str ("arc-runner-" ++ n)))),
       ("arc_gcp_argocd_app_project", .str "arc-runners"),
       ("arc_gcp_argocd_runners_namespace", .str "arc-runners"),
       ("arc_gcp_argocd_runner_config_map", .str "runner-configs"),
       ("arc_gcp_argocd_runner_configs", .deferred "arc_gcp.runner_configs"),
       ("arc_gcp_argocd_deployed", .bool true)]
  | .aliGcpL =>
      ((pyOrList c.gcp_vpc_suffixes ["I", "II"]).map
        (fun s => ("ali_gcp_prod_vpcs_" ++ s, Value.deferred ("ali_gcp.vpc." ++ s))))
      ++ ((pyOrList c.gcp_vpc_suffixes ["I", "II"]).map
        (fun s => ("ali_gcp_prod_subnets_" ++ s, Value.deferred ("ali_gcp.subnet." ++ s))))
      ++ [("ali_gcp_canary_vpc",
            if pyOrList c.gcp_canary_vpc_suffixes ["I"] = [] then Value.pyNone
            else Value.deferred "ali_gcp.canary_vpc"),
          ("ali_gcp_canary_subnet",
            if pyOrList c.gcp_canary_vpc_suffixes ["I"] = [] then Value.pyNone
            else Value.deferred "ali_gcp.canary_subnet"),
          ("ali_gcp_github_actions_sa_email", .deferred "ali_gcp.github_actions_sa.email"),
          ("ali_gcp_workload_identity_pool",
            .deferred "ali_gcp.workload_identity_pool.name"),
          ("ali_gcp_workload_identity_provider",
            .deferred "ali_gcp.workload_identity_provider.name"),
          ("ali_gcp_autoscaler_sa_email", .deferred "ali_gcp.autoscaler_sa.email"),
          ("ali_gcp_artifact_registry_sa_email",
            .deferred "ali_gcp.artifact_registry_sa.email"),
          ("ali_gcp_storage_sa_email", .deferred "ali_gcp.storage_sa.email"),
          ("ali_gcp_functions_sa_email", .deferred "ali_gcp.functions_sa.email"),
          ("ali_gcp_sccache_bucket", .deferred "ali_gcp.sccache_bucket.name"),
          ("ali_gcp_gcp_project", .str (pyOrStr c.gcp_project "")),
          ("ali_gcp_gcp_region", .str (pyOrStr c.gcp_region "us-central1")),
          ("ali_gcp_ali_prod_environment", .str (pyOrStr c.ali_prod_environment_gcp "ghci-lf-gcp")),
          ("ali_gcp_ali_canary_environment",
            .str (pyOrStr c.ali_canary_environment_gcp "ghci-lf-c-gcp")),
          ("ali_gcp_infrastructure_deployed", .bool true)]
  | .sharedGcpL =>
      [("shared_gcp_state_bucket_name", .deferred "shared_gcp.state_bucket.name"),
       ("shared_gcp_state_bucket_url", .deferred "shared_gcp.state_bucket.url"),
       ("shared_gcp_backup_bucket_name", .deferred "shared_gcp.backup_bucket.name"),
       ("shared_gcp_backup_bucket_url", .deferred "shared_gcp.backup_bucket.url"),
       ("shared_gcp_artifacts_bucket_name", .deferred "shared_gcp.artifacts_bucket.name"),
       ("shared_gcp_artifacts_bucket_url", .deferred "shared_gcp.artifacts_bucket.url"),
       ("shared_gcp_logs_bucket_name", .deferred "shared_gcp.logs_bucket.name"),
       ("shared_gcp_logs_bucket_url", .deferred "shared_gcp.logs_bucket.url"),
       ("shared_gcp_firestore_database_name", .deferred "shared_gcp.firestore_database.name"),
       ("shared_gcp_state_management_sa_email",
         .deferred "shared_gcp.state_management_sa.email"),
       ("shared_gcp_gcp_project", .str (pyOrStr c.gcp_project "")),
       ("shared_gcp_gcp_region", .str (pyOrStr c.gcp_region "us-central1")),
       ("shared_gcp_infrastructure_deployed", .bool true)]

/-- The keys of an export list. -/
def keysOf (xs : List Export) : List String := xs.map Prod.fst

/-- Whether the layer's `deploy()` was invoked and returned normally. -/
def completedL (c : Config) (f : FailureSpec) (l : Layer) : Bool :=
  invokedL c f l && !raisesL c f l

/-- The diagnostic export of the AWS ARC `except` handler (line 128). -/
def arcNoteE : Export :=
  ("arc_deployment_note", .str "ARC deployment requires AWS credentials")

/-- The diagnostic export of the AWS ALI `except` handler (line 139). -/
def aliNoteE : Export :=
  ("ali_deployment_note", .str "ALI deployment requires AWS credentials")

/-- The diagnostic export of the GCP ARC `except` handler (line 163). -/
def arcGcpNoteE : Export :=
  ("arc_gcp_deployment_note", .str "ARC GCP deployment requires GCP credentials")

/-- The diagnostic export of the GCP ALI `except` handler (line 174). -/
def aliGcpNoteE : Export :=
  ("ali_gcp_deployment_note", .str "ALI GCP deployment requires GCP credentials")

/-- The diagnostic export of the shared GCP `except` handler (line 186). -/
def sharedGcpNoteE : Export :=
  ("shared_gcp_deployment_note", .str "Shared GCP deployment requires GCP credentials")

/-- Every key the AWS ARC block can ever publish. -/
def arcKeyPool : List String :=
  ["arc_deployment_note", "arc_vpc_id", "arc_eks_cluster_name",
   "arc_eks_cluster_endpoint", "arc_pytorch_ci_admins_role_arn",
   "arc_infrastructure_deployed", "arc_argocd_namespace", "arc_arc_namespace",
   "arc_nginx_ingress_installed", "arc_argocd_installed", "arc_controller_installed",
   "arc_helm_deployed", "arc_runner_namespaces", "arc_application_set_created",
   "arc_argocd_deployed"]

/-- Every key the AWS ALI block can ever publish. -/
def aliKeyPool : List String :=
  ["ali_deployment_note", "ali_prod_vpc_ids", "ali_canary_vpc_id",
   "ali_ossci_gha_terraform_role_arn", "ali_ecr_policy_arn",
   "ali_infrastructure_deployed"]

/-- Every key the GCP ARC block can ever publish. -/
def arcGcpKeyPool : List String :=
  ["arc_gcp_deployment_note", "arc_gcp_gke_cluster", "arc_gcp_gke_cluster_name",
   "arc_gcp_gke_cluster_endpoint", "arc_gcp_gke_cluster_ca_certificate",
   "arc_gcp_vpc_network_id", "arc_gcp_vpc_network_name", "arc_gcp_subnetwork_id",
   "arc_gcp_subnetwork_name", "arc_gcp_gke_node_sa_email",
   "arc_gcp_pytorch_ci_admins_sa_email", "arc_gcp_workload_identity_pool",
   "arc_gcp_kubeconfig", "arc_gcp_gcp_project", "arc_gcp_gcp_region",
   "arc_gcp_arc_environment", "arc_gcp_infrastructure_deployed",
   "arc_gcp_helm_cert_manager_namespace", "arc_gcp_helm_nginx_namespace",
   "arc_gcp_helm_argocd_namespace", "arc_gcp_helm_arc_namespace",
   "arc_gcp_helm_argocd_url", "arc_gcp_helm_deployed",
   "arc_gcp_argocd_argocd_apps", "arc_gcp_argocd_app_project",
   "arc_gcp_argocd_runners_namespace", "arc_gcp_argocd_runner_config_map",
   "arc_gcp_argocd_runner_configs", "arc_gcp_argocd_deployed"]

/-- Every suffix-independent key the GCP ALI block can publish; the
per-suffix keys are `ali_gcp_prod_vpcs_<s>` and `ali_gcp_prod_subnets_<s>`. -/
def aliGcpKeyPool : List String :=
  ["ali_gcp_deployment_note", "ali_gcp_canary_vpc", "ali_gcp_canary_subnet",
   "ali_gcp_github_actions_sa_email", "ali_gcp_workload_identity_pool",
   "ali_gcp_workload_identity_provider", "ali_gcp_autoscaler_sa_email",
   "ali_gcp_artifact_registry_sa_email", "ali_gcp_storage_sa_email",
   "ali_gcp_functions_sa_email", "ali_gcp_sccache_bucket", "ali_gcp_gcp_project",
   "ali_gcp_gcp_region", "ali_gcp_ali_prod_environment",
   "ali_gcp_ali_canary_environment", "ali_gcp_infrastructure_deployed"]

/-- Every key the shared GCP block can ever publish. -/
def sharedGcpKeyPool : List String :=
  ["shared_gcp_deployment_note", "shared_gcp_state_bucket_name",
   "shared_gcp_state_bucket_url", "shared_gcp_backup_bucket_name",
   "shared_gcp_backup_bucket_url", "shared_gcp_artifacts_bucket_name",
   "shared_gcp_artifacts_bucket_url", "shared_gcp_logs_bucket_name",
   "shared_gcp_logs_bucket_url", "shared_gcp_firestore_database_name",
   "shared_gcp_state_management_sa_email", "shared_gcp_gcp_project",
   "shared_gcp_gcp_region", "shared_gcp_infrastructure_deployed"]

/-- The four keys the orchestrator itself publishes. -/
def topLevelKeys : List String :=
  ["migration_status", "cloud_provider", "infrastructure_components", "summary"]

/-- The key shape claim C8 asserts of every published key: a
`<provider>_<layer>_` prefix with the provider named first. -/
def providerLayerShaped (k : String) : Prop :=
  ∃ p ∈ (["aws", "gcp"] : List String),
    ∃ t : String, k = p ++ "_" ++ t

/-- The failure specification of a run in which the backend fails
nothing. -/
def noFail : FailureSpec := {}

/-- A configuration agreeing with `f` on every AWS-chain failure flag. -/
def awsAgrees (f g : FailureSpec) : Prop :=
  f.arcInfra = g.arcInfra ∧ f.arcHelm = g.arcHelm ∧
    f.arcArgocd = g.arcArgocd ∧ f.ali = g.ali

/-- A configuration agreeing with `f` on every GCP-chain failure flag. -/
def gcpAgrees (f g : FailureSpec) : Prop :=
  f.arcInfraGcp = g.arcInfraGcp ∧ f.arcHelmGcp = g.arcHelmGcp ∧
    f.arcArgocdGcp = g.arcArgocdGcp ∧ f.aliGcp = g.aliGcp ∧
    f.sharedGcp = g.sharedGcp

/-- The `summary` export (`__main__.py` line 234). -/
def summaryE : Export := ("summary", .str summaryText)

/-! ### Concrete configurations used as witnesses and counterexamples -/

/-- Everything enabled on both providers, with both required region/project
keys present. -/
def cAll : Config :=
  { cloud_provider := some "both", deploy_arc := some true, deploy_ali := some true,
    deploy_argocd := some true, deploy_arc_gcp := some true,
    deploy_ali_gcp := some true, deploy_argocd_gcp := some true,
    aws_region := some "us-east-1", gcp_project := some "pytorch-ci" }

/-- AWS ARC chain enabled (with its region) and nothing else. -/
def cArcOnly : Config :=
  { cloud_provider := some "aws", deploy_arc := some true,
    aws_region := some "us-east-1" }

/-- AWS ARC chain enabled but the required `aws:region` key absent. -/
def cArcNoRegion : Config :=
  { cloud_provider := some "aws", deploy_arc := some true }

/-- A provider-selection value outside `{aws, gcp, both}`. -/
def cUnknownProv : Config :=
  { cloud_provider := some "azure", deploy_arc := some true,
    deploy_ali := some true, deploy_arc_gcp := some true,
    deploy_ali_gcp := some true, aws_region := some "us-east-1",
    gcp_project := some "pytorch-ci" }

/-- `cloud_provider=both` with every deployment flag explicitly false. -/
def cBothAllOff : Config :=
  { cloud_provider := some "both", deploy_arc := some false,
    deploy_ali := some false, deploy_argocd := some false,
    deploy_arc_gcp := some false, deploy_ali_gcp := some false,
    deploy_argocd_gcp := some false }

/-- Dependent layers enabled while their parent layers are disabled. -/
def cDependentOnly : Config :=
  { cloud_provider := some "both", deploy_argocd := some true,
    deploy_argocd_gcp := some true, aws_region := some "us-east-1",
    gcp_project := some "pytorch-ci" }

/-- The empty configuration: every key absent. -/
def cEmpty : Config := {}

/-- Only the AWS helm layer's invocation fails. -/
def fHelmFail : FailureSpec := { arcHelm := true }

/-- Every GCP-chain invocation fails; the AWS chain is untouched. -/
def fGcpFail : FailureSpec :=
  { arcInfraGcp := true, arcHelmGcp := true, arcArgocdGcp := true,
    aliGcp := true, sharedGcp := true }

/-! ## Block normal forms -/

theorem arcBlock_eq (c : Config) (f : FailureSpec) (da : Bool) :
    arcBlock c f da =
      if c.aws_region.isNone || f.arcInfra then [arcNoteE]
      else
        ownExports c .arcInfraL ++
          (if f.arcHelm then [arcNoteE]
           else ownExports c .arcHelmL ++
             (if da then
                (if f.arcArgocd then [arcNoteE] else ownExports c .arcArgocdL)
              else [])) := by
  cases hr : c.aws_region <;>
  cases hfi : f.arcInfra <;>
  cases hfh : f.arcHelm <;>
  cases hfa : f.arcArgocd <;>
  cases da <;>
  simp [arcBlock, arc_infra.deploy, arc_helm.deploy, arc_argocd.deploy,
        requireKey, dictGet, ownExports, arcNoteE, hr, hfi, hfh, hfa,
        List.lookup, Except.instMonad, Except.bind, Except.map, Except.pure,
        throw, throwThe, MonadExceptOf.throw, instMonadExceptOfExcept]

theorem pyOrStr_some_empty (s : String) : pyOrStr (some s) "" = s := by
  unfold pyOrStr
  split <;> simp_all

theorem aliBlock_eq (c : Config) (f : FailureSpec) :
    aliBlock c f =
      if c.aws_region.isNone || f.ali then [aliNoteE]
      else ownExports c .aliL := by
  cases hr : c.aws_region <;>
  cases hfa : f.ali <;>
  simp [aliBlock, ali_infra.deploy, requireKey, ownExports, aliNoteE, hr, hfa,
        Except.instMonad, Except.bind, Except.map, Except.pure,
        throw, throwThe, MonadExceptOf.throw, instMonadExceptOfExcept]

theorem arcGcpBlock_eq (c : Config) (f : FailureSpec) (da : Bool) :
    arcGcpBlock c f da =
      if c.gcp_project.isNone || f.arcInfraGcp then [arcGcpNoteE]
      else
        ownExports c .arcInfraGcpL ++
          (if f.arcHelmGcp then [arcGcpNoteE]
           else ownExports c .arcHelmGcpL ++
             (if da then
                (if f.arcArgocdGcp then [arcGcpNoteE] else ownExports c .arcArgocdGcpL)
              else [])) := by
  cases hr : c.gcp_project <;>
  cases hfi : f.arcInfraGcp <;>
  cases hfh : f.arcHelmGcp <;>
  cases hfa : f.arcArgocdGcp <;>
  cases da <;>
  simp [arcGcpBlock, arc_infra_gcp.deploy, arc_helm_gcp.deploy, arc_argocd_gcp.deploy,
        arc_infra_gcp.outputsList, requireKey, dictGet, ownExports, arcGcpNoteE,
        hr, hfi, hfh, hfa, pyOrStr_some_empty,
        List.lookup, Except.instMonad, Except.bind, Except.map, Except.pure,
        throw, throwThe, MonadExceptOf.throw, instMonadExceptOfExcept]

theorem aliGcpBlock_eq (c : Config) (f : FailureSpec) :
    aliGcpBlock c f =
      if c.gcp_project.isNone || f.aliGcp then [aliGcpNoteE]
      else ownExports c .aliGcpL := by
  cases hr : c.gcp_project <;>
  cases hfa : f.aliGcp <;>
  simp [aliGcpBlock, ali_infra_gcp.deploy, requireKey, ownExports, aliGcpNoteE,
        hr, hfa, pyOrStr_some_empty,
        Except.instMonad, Except.bind, Except.map, Except.pure,
        throw, throwThe, MonadExceptOf.throw, instMonadExceptOfExcept]

theorem strDataAppend (s t : String) : (s ++ t).data = s.data ++ t.data := rfl

theorem ne_of_take_ne (p k : String) (h : k.data.take p.data.length ≠ p.data)
    (t : String) : p ++ t ≠ k := by
  intro he
  apply h
  rw [← he, strDataAppend, List.take_append_of_le_length (le_refl _), List.take_length]

theorem appendTwoNe (p q : String) (m : Nat) (hp : m ≤ p.data.length)
    (hq : m ≤ q.data.length) (h : p.data.take m ≠ q.data.take m) (s t : String) :
    p ++ s ≠ q ++ t := by
  intro he
  apply h
  have hd : p.data ++ s.data = q.data ++ t.data := by
    rw [← strDataAppend, ← strDataAppend, he]
  calc p.data.take m = (p.data ++ s.data).take m :=
        (List.take_append_of_le_length hp).symm
    _ = (q.data ++ t.data).take m := by rw [hd]
    _ = q.data.take m := List.take_append_of_le_length hq

theorem strAppendLeftCancel {p s t : String} (h : p ++ s = p ++ t) : s = t := by
  have hd := congrArg String.data h
  rw [strDataAppend, strDataAppend] at hd
  have h2 := List.append_cancel_left hd
  cases s
  cases t
  exact congrArg String.mk h2

theorem preNotMem (p : String) (L : List String)
    (h : ∀ k ∈ L, k.data.take p.data.length ≠ p.data) (s : String) :
    (p ++ s) ∉ L := by
  intro hmem
  exact ne_of_take_ne p (p ++ s) (h _ hmem) s rfl

theorem sharedGcpBlock_eq (c : Config) (f : FailureSpec) :
    sharedGcpBlock c f =
      if c.gcp_project.isNone || f.sharedGcp then [sharedGcpNoteE]
      else ownExports c .sharedGcpL := by
  cases hr : c.gcp_project <;>
  cases hfa : f.sharedGcp <;>
  simp [sharedGcpBlock, backend_state_gcp.deploy, requireKey, ownExports,
        sharedGcpNoteE, hr, hfa, pyOrStr_some_empty,
        Except.instMonad, Except.bind, Except.map, Except.pure,
        throw, throwThe, MonadExceptOf.throw, instMonadExceptOfExcept]

/-! ## Key characterisation of each block -/

theorem keysOf_append (a b : List Export) :
    keysOf (a ++ b) = keysOf a ++ keysOf b := by
  simp [keysOf]

theorem keys_own_arcInfraGcp (c : Config) :
    keysOf (ownExports c .arcInfraGcpL) =
      ["arc_gcp_gke_cluster", "arc_gcp_gke_cluster_name",
       "arc_gcp_gke_cluster_endpoint", "arc_gcp_gke_cluster_ca_certificate",
       "arc_gcp_vpc_network_id", "arc_gcp_vpc_network_name",
       "arc_gcp_subnetwork_id", "arc_gcp_subnetwork_name",
       "arc_gcp_gke_node_sa_email", "arc_gcp_pytorch_ci_admins_sa_email",
       "arc_gcp_workload_identity_pool", "arc_gcp_kubeconfig",
       "arc_gcp_gcp_project", "arc_gcp_gcp_region", "arc_gcp_arc_environment",
       "arc_gcp_infrastructure_deployed"] := by
  simp [keysOf, ownExports, arc_infra_gcp.outputsList]

theorem arcBlock_keys_sub (c : Config) (f : FailureSpec) (da : Bool) :
    ∀ k ∈ keysOf (arcBlock c f da), k ∈ arcKeyPool := by
  intro k hk
  rw [arcBlock_eq] at hk
  split_ifs at hk <;>
    simp [keysOf, ownExports, arcNoteE, arcKeyPool] at hk ⊢ <;> tauto

theorem aliBlock_keys_sub (c : Config) (f : FailureSpec) :
    ∀ k ∈ keysOf (aliBlock c f), k ∈ aliKeyPool := by
  intro k hk
  rw [aliBlock_eq] at hk
  split_ifs at hk <;>
    simp [keysOf, ownExports, aliNoteE, aliKeyPool] at hk ⊢ <;> tauto

set_option maxHeartbeats 2000000 in
theorem arcGcpBlock_keys_sub (c : Config) (f : FailureSpec) (da : Bool) :
    ∀ k ∈ keysOf (arcGcpBlock c f da), k ∈ arcGcpKeyPool := by
  intro k hk
  rw [arcGcpBlock_eq] at hk
  split_ifs at hk <;>
    simp [keysOf, ownExports, arc_infra_gcp.outputsList, arcGcpNoteE,
      arcGcpKeyPool] at hk ⊢ <;> tauto

theorem aliGcpBlock_keys_shape (c : Config) (f : FailureSpec) :
    ∀ k ∈ keysOf (aliGcpBlock c f),
      k ∈ aliGcpKeyPool ∨
        ∃ s, k = "ali_gcp_prod_vpcs_" ++ s ∨ k = "ali_gcp_prod_subnets_" ++ s := by
  intro k hk
  rw [aliGcpBlock_eq] at hk
  split_ifs at hk
  · left
    simp [keysOf, aliGcpNoteE] at hk
    simp [aliGcpKeyPool, hk]
  · simp [keysOf, ownExports] at hk
    rcases hk with ⟨s, _, rfl⟩ | ⟨s, _, rfl⟩ | h
    · exact Or.inr ⟨s, Or.inl rfl⟩
    · exact Or.inr ⟨s, Or.inr rfl⟩
    · left
      simp [aliGcpKeyPool]
      tauto

theorem sharedGcpBlock_keys_sub (c : Config) (f : FailureSpec) :
    ∀ k ∈ keysOf (sharedGcpBlock c f), k ∈ sharedGcpKeyPool := by
  intro k hk
  rw [sharedGcpBlock_eq] at hk
  split_ifs at hk <;>
    simp [keysOf, ownExports, sharedGcpNoteE, sharedGcpKeyPool] at hk ⊢ <;> tauto

theorem awsExports_keys_sub (c : Config) (f : FailureSpec) :
    ∀ k ∈ keysOf (awsExports c f), k ∈ arcKeyPool ∨ k ∈ aliKeyPool := by
  intro k hk
  unfold awsExports at hk
  split_ifs at hk
  all_goals try rw [keysOf_append, List.mem_append] at hk
  all_goals try rcases hk with hk | hk
  all_goals first
    | exact Or.inl (arcBlock_keys_sub c f _ k hk)
    | exact Or.inr (aliBlock_keys_sub c f k hk)
    | simp [keysOf] at hk

theorem gcpExports_keys_shape (c : Config) (f : FailureSpec) :
    ∀ k ∈ keysOf (gcpExports c f),
      k ∈ arcGcpKeyPool ∨ k ∈ sharedGcpKeyPool ∨
        (k ∈ aliGcpKeyPool ∨
          ∃ s, k = "ali_gcp_prod_vpcs_" ++ s ∨ k = "ali_gcp_prod_subnets_" ++ s) := by
  intro k hk
  unfold gcpExports at hk
  split_ifs at hk
  all_goals try rw [keysOf_append, List.mem_append] at hk
  all_goals try rcases hk with hk | hk
  all_goals try rw [keysOf_append, List.mem_append] at hk
  all_goals try rcases hk with hk | hk
  all_goals first
    | exact Or.inl (arcGcpBlock_keys_sub c f _ k hk)
    | exact Or.inr (Or.inr (aliGcpBlock_keys_shape c f k hk))
    | exact Or.inr (Or.inl (sharedGcpBlock_keys_sub c f k hk))
    | simp [keysOf] at hk

theorem providerAws_iff (c : Config) :
    providerAws c = true ↔
      (pyOrStr c.cloud_provider "aws" = "aws" ∨
        pyOrStr c.cloud_provider "aws" = "both") := by
  simp [providerAws]

theorem providerGcp_iff (c : Config) :
    providerGcp c = true ↔
      (pyOrStr c.cloud_provider "aws" = "gcp" ∨
        pyOrStr c.cloud_provider "aws" = "both") := by
  simp [providerGcp]

theorem not_in_aws_keys (c : Config) (f : FailureSpec) (k : String)
    (h1 : k ∉ arcKeyPool) (h2 : k ∉ aliKeyPool) :
    k ∉ keysOf (awsExports c f) :=
  fun hk => (awsExports_keys_sub c f k hk).elim h1 h2

theorem not_in_gcp_keys (c : Config) (f : FailureSpec) (k : String)
    (h1 : k ∉ arcGcpKeyPool) (h2 : k ∉ sharedGcpKeyPool) (h3 : k ∉ aliGcpKeyPool)
    (h4 : ∀ s, "ali_gcp_prod_vpcs_" ++ s ≠ k)
    (h5 : ∀ s, "ali_gcp_prod_subnets_" ++ s ≠ k) :
    k ∉ keysOf (gcpExports c f) := by
  intro hk
  rcases gcpExports_keys_shape c f k hk with h | h | h | ⟨s, hs | hs⟩
  · exact h1 h
  · exact h2 h
  · exact h3 h
  · exact h4 s hs.symm
  · exact h5 s hs.symm

theorem mem_run_cases (c : Config) (f : FailureSpec) (k : String)
    (hk : k ∈ keysOf (runList c f)) :
    k ∈ keysOf (headExports c) ∨ k ∈ keysOf (awsExports c f) ∨
      k ∈ keysOf (gcpExports c f) ∨ k = "summary" := by
  unfold runList at hk
  rw [keysOf_append, List.mem_append] at hk
  rcases hk with hk | hk
  · rw [keysOf_append, List.mem_append] at hk
    rcases hk with hk | hk
    · rw [keysOf_append, List.mem_append] at hk
      rcases hk with hk | hk
      · exact Or.inl hk
      · exact Or.inr (Or.inl hk)
    · exact Or.inr (Or.inr (Or.inl hk))
  · simp [keysOf] at hk
    exact Or.inr (Or.inr (Or.inr hk))

/-! ## Position of each block and layer inside the run -/

theorem aws_infix_run (c : Config) (f : FailureSpec) :
    awsExports c f <:+: runList c f := by
  unfold runList
  exact (((List.suffix_append (headExports c) (awsExports c f)).isInfix).trans
    ((List.prefix_append (headExports c ++ awsExports c f) (gcpExports c f)).isInfix)).trans
    ((List.prefix_append (headExports c ++ awsExports c f ++ gcpExports c f)
      [("summary", .str summaryText)]).isInfix)

theorem gcp_infix_run (c : Config) (f : FailureSpec) :
    gcpExports c f <:+: runList c f := by
  unfold runList
  exact ((List.suffix_append (headExports c ++ awsExports c f) (gcpExports c f)).isInfix).trans
    ((List.prefix_append (headExports c ++ awsExports c f ++ gcpExports c f)
      [("summary", .str summaryText)]).isInfix)

theorem arcBlock_infix_run (c : Config) (f : FailureSpec)
    (hP : providerAws c = true) (hArc : pyOrBool c.deploy_arc = true) :
    arcBlock c f (pyOrBool c.deploy_argocd) <:+: runList c f := by
  have haws : arcBlock c f (pyOrBool c.deploy_argocd) <+: awsExports c f := by
    unfold awsExports
    rw [if_pos ((providerAws_iff c).mp hP), if_pos hArc]
    exact List.prefix_append _ _
  exact haws.isInfix.trans (aws_infix_run c f)

theorem aliBlock_infix_run (c : Config) (f : FailureSpec)
    (hP : providerAws c = true) (hAli : pyOrBool c.deploy_ali = true) :
    aliBlock c f <:+: runList c f := by
  have haws : aliBlock c f <:+ awsExports c f := by
    unfold awsExports
    rw [if_pos ((providerAws_iff c).mp hP), if_pos hAli]
    exact List.suffix_append _ _
  exact haws.isInfix.trans (aws_infix_run c f)

theorem arcGcpBlock_infix_run (c : Config) (f : FailureSpec)
    (hP : providerGcp c = true) (hArc : pyOrBool c.deploy_arc_gcp = true) :
    arcGcpBlock c f (pyOrBool c.deploy_argocd_gcp) <:+: runList c f := by
  have hg : arcGcpBlock c f (pyOrBool c.deploy_argocd_gcp) <+: gcpExports c f := by
    unfold gcpExports
    rw [if_pos ((providerGcp_iff c).mp hP), if_pos hArc]
    exact (List.prefix_append _ _).trans (List.prefix_append _ _)
  exact hg.isInfix.trans (gcp_infix_run c f)

theorem aliGcpBlock_infix_run (c : Config) (f : FailureSpec)
    (hP : providerGcp c = true) (hAli : pyOrBool c.deploy_ali_gcp = true) :
    aliGcpBlock c f <:+: runList c f := by
  have hg : aliGcpBlock c f <:+: gcpExports c f := by
    unfold gcpExports
    rw [if_pos ((providerGcp_iff c).mp hP), if_pos hAli]
    exact ((List.suffix_append _ (aliGcpBlock c f)).isInfix).trans
      ((List.prefix_append _ _).isInfix)
  exact hg.trans (gcp_infix_run c f)

theorem sharedGcpBlock_infix_run (c : Config) (f : FailureSpec)
    (hP : providerGcp c = true)
    (hOn : (pyOrBool c.deploy_arc_gcp ∨ pyOrBool c.deploy_ali_gcp)) :
    sharedGcpBlock c f <:+: runList c f := by
  have hg : sharedGcpBlock c f <:+ gcpExports c f := by
    unfold gcpExports
    rw [if_pos ((providerGcp_iff c).mp hP), if_pos hOn]
    exact List.suffix_append _ _
  exact hg.isInfix.trans (gcp_infix_run c f)

theorem own_arcInfra_infix (c : Config) (f : FailureSpec)
    (hP : providerAws c = true) (hArc : pyOrBool c.deploy_arc = true)
    (hOK : (c.aws_region.isNone || f.arcInfra) = false) :
    ownExports c .arcInfraL <:+: runList c f := by
  have hb : ownExports c .arcInfraL <+: arcBlock c f (pyOrBool c.deploy_argocd) := by
    rw [arcBlock_eq, if_neg (by simp [hOK])]
    exact List.prefix_append _ _
  exact hb.isInfix.trans (arcBlock_infix_run c f hP hArc)

theorem own_arcHelm_infix (c : Config) (f : FailureSpec)
    (hP : providerAws c = true) (hArc : pyOrBool c.deploy_arc = true)
    (hOK : (c.aws_region.isNone || f.arcInfra) = false) (hH : f.arcHelm = false) :
    ownExports c .arcHelmL <:+: runList c f := by
  have hb : ownExports c .arcHelmL <:+: arcBlock c f (pyOrBool c.deploy_argocd) := by
    rw [arcBlock_eq, if_neg (by simp [hOK]), if_neg (by simp [hH])]
    exact ((List.prefix_append _ _).isInfix).trans ((List.suffix_append _ _).isInfix)
  exact hb.trans (arcBlock_infix_run c f hP hArc)

theorem own_arcArgocd_infix (c : Config) (f : FailureSpec)
    (hP : providerAws c = true) (hArc : pyOrBool c.deploy_arc = true)
    (hOK : (c.aws_region.isNone || f.arcInfra) = false) (hH : f.arcHelm = false)
    (hDa : pyOrBool c.deploy_argocd = true) (hA : f.arcArgocd = false) :
    ownExports c .arcArgocdL <:+: runList c f := by
  have hb : ownExports c .arcArgocdL <:+: arcBlock c f (pyOrBool c.deploy_argocd) := by
    rw [arcBlock_eq, if_neg (by simp [hOK]), if_neg (by simp [hH]),
      if_pos hDa, if_neg (by simp [hA])]
    exact ((List.suffix_append _ _).isInfix).trans ((List.suffix_append _ _).isInfix)
  exact hb.trans (arcBlock_infix_run c f hP hArc)

theorem own_ali_infix (c : Config) (f : FailureSpec)
    (hP : providerAws c = true) (hAli : pyOrBool c.deploy_ali = true)
    (hOK : (c.aws_region.isNone || f.ali) = false) :
    ownExports c .aliL <:+: runList c f := by
  have hb : ownExports c .aliL <:+: aliBlock c f := by
    rw [aliBlock_eq, if_neg (by simp [hOK])]
  exact hb.trans (aliBlock_infix_run c f hP hAli)

theorem own_arcInfraGcp_infix (c : Config) (f : FailureSpec)
    (hP : providerGcp c = true) (hArc : pyOrBool c.deploy_arc_gcp = true)
    (hOK : (c.gcp_project.isNone || f.arcInfraGcp) = false) :
    ownExports c .arcInfraGcpL <:+: runList c f := by
  have hb : ownExports c .arcInfraGcpL <+: arcGcpBlock c f (pyOrBool c.deploy_argocd_gcp) := by
    rw [arcGcpBlock_eq, if_neg (by simp [hOK])]
    exact List.prefix_append _ _
  exact hb.isInfix.trans (arcGcpBlock_infix_run c f hP hArc)

theorem own_arcHelmGcp_infix (c : Config) (f : FailureSpec)
    (hP : providerGcp c = true) (hArc : pyOrBool c.deploy_arc_gcp = true)
    (hOK : (c.gcp_project.isNone || f.arcInfraGcp) = false) (hH : f.arcHelmGcp = false) :
    ownExports c .arcHelmGcpL <:+: runList c f := by
  have hb : ownExports c .arcHelmGcpL <:+: arcGcpBlock c f (pyOrBool c.deploy_argocd_gcp) := by
    rw [arcGcpBlock_eq, if_neg (by simp [hOK]), if_neg (by simp [hH])]
    exact ((List.prefix_append _ _).isInfix).trans ((List.suffix_append _ _).isInfix)
  exact hb.trans (arcGcpBlock_infix_run c f hP hArc)

theorem own_arcArgocdGcp_infix (c : Config) (f : FailureSpec)
    (hP : providerGcp c = true) (hArc : pyOrBool c.deploy_arc_gcp = true)
    (hOK : (c.gcp_project.isNone || f.arcInfraGcp) = false) (hH : f.arcHelmGcp = false)
    (hDa : pyOrBool c.deploy_argocd_gcp = true) (hA : f.arcArgocdGcp = false) :
    ownExports c .arcArgocdGcpL <:+: runList c f := by
  have hb : ownExports c .arcArgocdGcpL <:+: arcGcpBlock c f (pyOrBool c.deploy_argocd_gcp) := by
    rw [arcGcpBlock_eq, if_neg (by simp [hOK]), if_neg (by simp [hH]),
      if_pos hDa, if_neg (by simp [hA])]
    exact ((List.suffix_append _ _).isInfix).trans ((List.suffix_append _ _).isInfix)
  exact hb.trans (arcGcpBlock_infix_run c f hP hArc)

theorem own_aliGcp_infix (c : Config) (f : FailureSpec)
    (hP : providerGcp c = true) (hAli : pyOrBool c.deploy_ali_gcp = true)
    (hOK : (c.gcp_project.isNone || f.aliGcp) = false) :
    ownExports c .aliGcpL <:+: runList c f := by
  have hb : ownExports c .aliGcpL <:+: aliGcpBlock c f := by
    rw [aliGcpBlock_eq, if_neg (by simp [hOK])]
  exact hb.trans (aliGcpBlock_infix_run c f hP hAli)

theorem own_sharedGcp_infix (c : Config) (f : FailureSpec)
    (hP : providerGcp c = true)
    (hOn : (pyOrBool c.deploy_arc_gcp ∨ pyOrBool c.deploy_ali_gcp))
    (hOK : (c.gcp_project.isNone || f.sharedGcp) = false) :
    ownExports c .sharedGcpL <:+: runList c f := by
  have hb : ownExports c .sharedGcpL <:+: sharedGcpBlock c f := by
    rw [sharedGcpBlock_eq, if_neg (by simp [hOK])]
  exact hb.trans (sharedGcpBlock_infix_run c f hP hOn)

theorem ownExports_infix_of_completed (c : Config) (f : FailureSpec) (l : Layer)
    (h : completedL c f l = true) :
    ownExports c l <:+: runList c f := by
  unfold completedL at h
  rw [Bool.and_eq_true] at h
  obtain ⟨hinv, hnr⟩ := h
  rw [Bool.not_eq_true'] at hnr
  cases l with
  | arcInfraL =>
    have hinv' := hinv
    simp only [invokedL, Bool.and_eq_true] at hinv'
    obtain ⟨hP, hArc⟩ := hinv'
    have hOK : (c.aws_region.isNone || f.arcInfra) = false := by
      simpa [raisesL, hinv] using hnr
    exact own_arcInfra_infix c f hP hArc hOK
  | arcHelmL =>
    have hinv' := hinv
    simp only [invokedL, Bool.and_eq_true, Bool.not_eq_true'] at hinv'
    obtain ⟨⟨hP, hArc⟩, hOK⟩ := hinv'
    have hH : f.arcHelm = false := by simpa [raisesL, hinv] using hnr
    exact own_arcHelm_infix c f hP hArc hOK hH
  | arcArgocdL =>
    have hinv' := hinv
    simp only [invokedL, Bool.and_eq_true, Bool.not_eq_true'] at hinv'
    obtain ⟨⟨⟨⟨hP, hArc⟩, hOK⟩, hH⟩, hDa⟩ := hinv'
    have hA : f.arcArgocd = false := by simpa [raisesL, hinv] using hnr
    exact own_arcArgocd_infix c f hP hArc hOK hH hDa hA
  | aliL =>
    have hinv' := hinv
    simp only [invokedL, Bool.and_eq_true] at hinv'
    obtain ⟨hP, hAli⟩ := hinv'
    have hOK : (c.aws_region.isNone || f.ali) = false := by
      simpa [raisesL, hinv] using hnr
    exact own_ali_infix c f hP hAli hOK
  | arcInfraGcpL =>
    have hinv' := hinv
    simp only [invokedL, Bool.and_eq_true] at hinv'
    obtain ⟨hP, hArc⟩ := hinv'
    have hOK : (c.gcp_project.isNone || f.arcInfraGcp) = false := by
      simpa [raisesL, hinv] using hnr
    exact own_arcInfraGcp_infix c f hP hArc hOK
  | arcHelmGcpL =>
    have hinv' := hinv
    simp only [invokedL, Bool.and_eq_true, Bool.not_eq_true'] at hinv'
    obtain ⟨⟨hP, hArc⟩, hOK⟩ := hinv'
    have hH : f.arcHelmGcp = false := by simpa [raisesL, hinv] using hnr
    exact own_arcHelmGcp_infix c f hP hArc hOK hH
  | arcArgocdGcpL =>
    have hinv' := hinv
    simp only [invokedL, Bool.and_eq_true, Bool.not_eq_true'] at hinv'
    obtain ⟨⟨⟨⟨hP, hArc⟩, hOK⟩, hH⟩, hDa⟩ := hinv'
    have hA : f.arcArgocdGcp = false := by simpa [raisesL, hinv] using hnr
    exact own_arcArgocdGcp_infix c f hP hArc hOK hH hDa hA
  | aliGcpL =>
    have hinv' := hinv
    simp only [invokedL, Bool.and_eq_true] at hinv'
    obtain ⟨hP, hAli⟩ := hinv'
    have hOK : (c.gcp_project.isNone || f.aliGcp) = false := by
      simpa [raisesL, hinv] using hnr
    exact own_aliGcp_infix c f hP hAli hOK
  | sharedGcpL =>
    have hinv' := hinv
    simp only [invokedL, Bool.and_eq_true, Bool.or_eq_true] at hinv'
    obtain ⟨hP, hOr⟩ := hinv'
    have hOK : (c.gcp_project.isNone || f.sharedGcp) = false := by
      simpa [raisesL, hinv] using hnr
    exact own_sharedGcp_infix c f hP hOr hOK

theorem keys_mem_of_infix {xs ys : List Export} (h : xs <:+: ys) {k : String}
    (hk : k ∈ keysOf xs) : k ∈ keysOf ys :=
  (h.sublist.map Prod.fst).subset hk

theorem note_mem_of_raises (c : Config) (f : FailureSpec) (l : Layer)
    (h : raisesL c f l = true) :
    noteKey l ∈ keysOf (runList c f) := by
  unfold raisesL at h
  cases l with
  | arcInfraL =>
    rw [Bool.and_eq_true] at h
    obtain ⟨hinv, hcond⟩ := h
    simp only [invokedL, Bool.and_eq_true] at hinv
    obtain ⟨hP, hArc⟩ := hinv
    refine keys_mem_of_infix (arcBlock_infix_run c f hP hArc) ?_
    rw [arcBlock_eq, if_pos hcond]
    simp [keysOf, arcNoteE, noteKey]
  | arcHelmL =>
    rw [Bool.and_eq_true] at h
    obtain ⟨hinv, hcond⟩ := h
    simp only [invokedL, Bool.and_eq_true, Bool.not_eq_true'] at hinv
    obtain ⟨⟨hP, hArc⟩, hOK⟩ := hinv
    refine keys_mem_of_infix (arcBlock_infix_run c f hP hArc) ?_
    rw [arcBlock_eq, if_neg (by simp [hOK]), if_pos hcond]
    simp [keysOf, arcNoteE, noteKey]
  | arcArgocdL =>
    rw [Bool.and_eq_true] at h
    obtain ⟨hinv, hcond⟩ := h
    simp only [invokedL, Bool.and_eq_true, Bool.not_eq_true'] at hinv
    obtain ⟨⟨⟨⟨hP, hArc⟩, hOK⟩, hH⟩, hDa⟩ := hinv
    refine keys_mem_of_infix (arcBlock_infix_run c f hP hArc) ?_
    rw [arcBlock_eq, if_neg (by simp [hOK]), if_neg (by simp [hH]),
      if_pos hDa, if_pos hcond]
    simp [keysOf, arcNoteE, noteKey]
  | aliL =>
    rw [Bool.and_eq_true] at h
    obtain ⟨hinv, hcond⟩ := h
    simp only [invokedL, Bool.and_eq_true] at hinv
    obtain ⟨hP, hAli⟩ := hinv
    refine keys_mem_of_infix (aliBlock_infix_run c f hP hAli) ?_
    rw [aliBlock_eq, if_pos hcond]
    simp [keysOf, aliNoteE, noteKey]
  | arcInfraGcpL =>
    rw [Bool.and_eq_true] at h
    obtain ⟨hinv, hcond⟩ := h
    simp only [invokedL, Bool.and_eq_true] at hinv
    obtain ⟨hP, hArc⟩ := hinv
    refine keys_mem_of_infix (arcGcpBlock_infix_run c f hP hArc) ?_
    rw [arcGcpBlock_eq, if_pos hcond]
    simp [keysOf, arcGcpNoteE, noteKey]
  | arcHelmGcpL =>
    rw [Bool.and_eq_true] at h
    obtain ⟨hinv, hcond⟩ := h
    simp only [invokedL, Bool.and_eq_true, Bool.not_eq_true'] at hinv
    obtain ⟨⟨hP, hArc⟩, hOK⟩ := hinv
    refine keys_mem_of_infix (arcGcpBlock_infix_run c f hP hArc) ?_
    rw [arcGcpBlock_eq, if_neg (by simp [hOK]), if_pos hcond]
    simp [keysOf, arcGcpNoteE, noteKey]
  | arcArgocdGcpL =>
    rw [Bool.and_eq_true] at h
    obtain ⟨hinv, hcond⟩ := h
    simp only [invokedL, Bool.and_eq_true, Bool.not_eq_true'] at hinv
    obtain ⟨⟨⟨⟨hP, hArc⟩, hOK⟩, hH⟩, hDa⟩ := hinv
    refine keys_mem_of_infix (arcGcpBlock_infix_run c f hP hArc) ?_
    rw [arcGcpBlock_eq, if_neg (by simp [hOK]), if_neg (by simp [hH]),
      if_pos hDa, if_pos hcond]
    simp [keysOf, arcGcpNoteE, noteKey]
  | aliGcpL =>
    rw [Bool.and_eq_true] at h
    obtain ⟨hinv, hcond⟩ := h
    simp only [invokedL, Bool.and_eq_true] at hinv
    obtain ⟨hP, hAli⟩ := hinv
    refine keys_mem_of_infix (aliGcpBlock_infix_run c f hP hAli) ?_
    rw [aliGcpBlock_eq, if_pos hcond]
    simp [keysOf, aliGcpNoteE, noteKey]
  | sharedGcpL =>
    rw [Bool.and_eq_true] at h
    obtain ⟨hinv, hcond⟩ := h
    simp only [invokedL, Bool.and_eq_true, Bool.or_eq_true] at hinv
    obtain ⟨hP, hOr⟩ := hinv
    refine keys_mem_of_infix (sharedGcpBlock_infix_run c f hP hOr) ?_
    rw [sharedGcpBlock_eq, if_pos hcond]
    simp [keysOf, sharedGcpNoteE, noteKey]

theorem keys_head (c : Config) :
    keysOf (headExports c) =
      ["migration_status", "cloud_provider", "infrastructure_components"] := by
  simp [keysOf, headExports]

theorem mem_aws_cases (c : Config) (f : FailureSpec) (k : String)
    (hk : k ∈ keysOf (awsExports c f)) :
    k ∈ keysOf (arcBlock c f (pyOrBool c.deploy_argocd)) ∨
      k ∈ keysOf (aliBlock c f) := by
  unfold awsExports at hk
  split_ifs at hk
  all_goals try rw [keysOf_append, List.mem_append] at hk
  all_goals try rcases hk with hk | hk
  all_goals first
    | exact Or.inl hk
    | exact Or.inr hk
    | simp [keysOf] at hk

theorem mem_gcp_cases (c : Config) (f : FailureSpec) (k : String)
    (hk : k ∈ keysOf (gcpExports c f)) :
    k ∈ keysOf (arcGcpBlock c f (pyOrBool c.deploy_argocd_gcp)) ∨
      k ∈ keysOf (aliGcpBlock c f) ∨ k ∈ keysOf (sharedGcpBlock c f) := by
  unfold gcpExports at hk
  split_ifs at hk
  all_goals try rw [keysOf_append, List.mem_append] at hk
  all_goals try rcases hk with hk | hk
  all_goals try rw [keysOf_append, List.mem_append] at hk
  all_goals try rcases hk with hk | hk
  all_goals first
    | exact Or.inl hk
    | exact Or.inr (Or.inl hk)
    | exact Or.inr (Or.inr hk)
    | simp [keysOf] at hk

theorem deployed_not_mem_of_raises (c : Config) (f : FailureSpec) (l : Layer)
    (h : raisesL c f l = true) :
    deployedKey l ∉ keysOf (runList c f) := by
  intro hk
  rcases mem_run_cases c f _ hk with hh | hh | hh | hh
  · revert hh
    rw [keys_head]
    cases l <;> decide
  · -- the key would have to come from the AWS section
    unfold raisesL at h
    cases l with
    | arcInfraL =>
        rw [Bool.and_eq_true] at h
        obtain ⟨hinv, hcond⟩ := h
        rcases mem_aws_cases c f _ hh with hb | hb
        · rw [arcBlock_eq, if_pos hcond] at hb
          simp [keysOf, arcNoteE, deployedKey] at hb
        · exact absurd (aliBlock_keys_sub c f _ hb) (by decide)
    | arcHelmL =>
        rw [Bool.and_eq_true] at h
        obtain ⟨hinv, hcond⟩ := h
        simp only [invokedL, Bool.and_eq_true, Bool.not_eq_true'] at hinv
        obtain ⟨⟨hP, hArc⟩, hOK⟩ := hinv
        rcases mem_aws_cases c f _ hh with hb | hb
        · rw [arcBlock_eq, if_neg (by simp [hOK]), if_pos hcond] at hb
          simp [keysOf, ownExports, arcNoteE, deployedKey] at hb
        · exact absurd (aliBlock_keys_sub c f _ hb) (by decide)
    | arcArgocdL =>
        rw [Bool.and_eq_true] at h
        obtain ⟨hinv, hcond⟩ := h
        simp only [invokedL, Bool.and_eq_true, Bool.not_eq_true'] at hinv
        obtain ⟨⟨⟨⟨hP, hArc⟩, hOK⟩, hHm⟩, hDa⟩ := hinv
        rcases mem_aws_cases c f _ hh with hb | hb
        · rw [arcBlock_eq, if_neg (by simp [hOK]), if_neg (by simp [hHm]),
            if_pos hDa, if_pos hcond] at hb
          simp [keysOf, ownExports, arcNoteE, deployedKey] at hb
        · exact absurd (aliBlock_keys_sub c f _ hb) (by decide)
    | aliL =>
        rw [Bool.and_eq_true] at h
        obtain ⟨hinv, hcond⟩ := h
        rcases mem_aws_cases c f _ hh with hb | hb
        · exact absurd (arcBlock_keys_sub c f _ _ hb) (by decide)
        · rw [aliBlock_eq, if_pos hcond] at hb
          simp [keysOf, aliNoteE, deployedKey] at hb
    | arcInfraGcpL =>
        rcases mem_aws_cases c f _ hh with hb | hb
        · exact absurd (arcBlock_keys_sub c f _ _ hb) (by decide)
        · exact absurd (aliBlock_keys_sub c f _ hb) (by decide)
    | arcHelmGcpL =>
        rcases mem_aws_cases c f _ hh with hb | hb
        · exact absurd (arcBlock_keys_sub c f _ _ hb) (by decide)
        · exact absurd (aliBlock_keys_sub c f _ hb) (by decide)
    | arcArgocdGcpL =>
        rcases mem_aws_cases c f _ hh with hb | hb
        · exact absurd (arcBlock_keys_sub c f _ _ hb) (by decide)
        · exact absurd (aliBlock_keys_sub c f _ hb) (by decide)
    | aliGcpL =>
        rcases mem_aws_cases c f _ hh with hb | hb
        · exact absurd (arcBlock_keys_sub c f _ _ hb) (by decide)
        · exact absurd (aliBlock_keys_sub c f _ hb) (by decide)
    | sharedGcpL =>
        rcases mem_aws_cases c f _ hh with hb | hb
        · exact absurd (arcBlock_keys_sub c f _ _ hb) (by decide)
        · exact absurd (aliBlock_keys_sub c f _ hb) (by decide)
  · -- the key would have to come from the GCP section
    unfold raisesL at h
    cases l with
    | arcInfraL =>
        exact not_in_gcp_keys c f _ (by decide) (by decide) (by decide)
          (fun s => ne_of_take_ne _ _ (by decide) s)
          (fun s => ne_of_take_ne _ _ (by decide) s) hh
    | arcHelmL =>
        exact not_in_gcp_keys c f _ (by decide) (by decide) (by decide)
          (fun s => ne_of_take_ne _ _ (by decide) s)
          (fun s => ne_of_take_ne _ _ (by decide) s) hh
    | arcArgocdL =>
        exact not_in_gcp_keys c f _ (by decide) (by decide) (by decide)
          (fun s => ne_of_take_ne _ _ (by decide) s)
          (fun s => ne_of_take_ne _ _ (by decide) s) hh
    | aliL =>
        exact not_in_gcp_keys c f _ (by decide) (by decide) (by decide)
          (fun s => ne_of_take_ne _ _ (by decide) s)
          (fun s => ne_of_take_ne _ _ (by decide) s) hh
    | arcInfraGcpL =>
        rw [Bool.and_eq_true] at h
        obtain ⟨hinv, hcond⟩ := h
        rcases mem_gcp_cases c f _ hh with hb | hb | hb
        · rw [arcGcpBlock_eq, if_pos hcond] at hb
          simp [keysOf, arcGcpNoteE, deployedKey] at hb
        · rcases aliGcpBlock_keys_shape c f _ hb with hp | ⟨s, hs | hs⟩
          · exact absurd hp (by decide)
          · exact ne_of_take_ne _ _ (by decide) s hs.symm
          · exact ne_of_take_ne _ _ (by decide) s hs.symm
        · exact absurd (sharedGcpBlock_keys_sub c f _ hb) (by decide)
    | arcHelmGcpL =>
        rw [Bool.and_eq_true] at h
        obtain ⟨hinv, hcond⟩ := h
        simp only [invokedL, Bool.and_eq_true, Bool.not_eq_true'] at hinv
        obtain ⟨⟨hP, hArc⟩, hOK⟩ := hinv
        rcases mem_gcp_cases c f _ hh with hb | hb | hb
        · rw [arcGcpBlock_eq, if_neg (by simp [hOK]), if_pos hcond] at hb
          simp [keysOf, ownExports, arc_infra_gcp.outputsList,
            arcGcpNoteE, deployedKey] at hb
        · rcases aliGcpBlock_keys_shape c f _ hb with hp | ⟨s, hs | hs⟩
          · exact absurd hp (by decide)
          · exact ne_of_take_ne _ _ (by decide) s hs.symm
          · exact ne_of_take_ne _ _ (by decide) s hs.symm
        · exact absurd (sharedGcpBlock_keys_sub c f _ hb) (by decide)
    | arcArgocdGcpL =>
        rw [Bool.and_eq_true] at h
        obtain ⟨hinv, hcond⟩ := h
        simp only [invokedL, Bool.and_eq_true, Bool.not_eq_true'] at hinv
        obtain ⟨⟨⟨⟨hP, hArc⟩, hOK⟩, hHm⟩, hDa⟩ := hinv
        rcases mem_gcp_cases c f _ hh with hb | hb | hb
        · rw [arcGcpBlock_eq, if_neg (by simp [hOK]), if_neg (by simp [hHm]),
            if_pos hDa, if_pos hcond] at hb
          simp [keysOf, ownExports, arc_infra_gcp.outputsList,
            arcGcpNoteE, deployedKey] at hb
        · rcases aliGcpBlock_keys_shape c f _ hb with hp | ⟨s, hs | hs⟩
          · exact absurd hp (by decide)
          · exact ne_of_take_ne _ _ (by decide) s hs.symm
          · exact ne_of_take_ne _ _ (by decide) s hs.symm
        · exact absurd (sharedGcpBlock_keys_sub c f _ hb) (by decide)
    | aliGcpL =>
        rw [Bool.and_eq_true] at h
        obtain ⟨hinv, hcond⟩ := h
        rcases mem_gcp_cases c f _ hh with hb | hb | hb
        · exact absurd (arcGcpBlock_keys_sub c f _ _ hb) (by decide)
        · rw [aliGcpBlock_eq, if_pos hcond] at hb
          simp [keysOf, aliGcpNoteE, deployedKey] at hb
        · exact absurd (sharedGcpBlock_keys_sub c f _ hb) (by decide)
    | sharedGcpL =>
        rw [Bool.and_eq_true] at h
        obtain ⟨hinv, hcond⟩ := h
        rcases mem_gcp_cases c f _ hh with hb | hb | hb
        · exact absurd (arcGcpBlock_keys_sub c f _ _ hb) (by decide)
        · rcases aliGcpBlock_keys_shape c f _ hb with hp | ⟨s, hs | hs⟩
          · exact absurd hp (by decide)
          · exact ne_of_take_ne _ _ (by decide) s hs.symm
          · exact ne_of_take_ne _ _ (by decide) s hs.symm
        · rw [sharedGcpBlock_eq, if_pos hcond] at hb
          simp [keysOf, sharedGcpNoteE, deployedKey] at hb
  · revert hh
    cases l <;> decide

/-! ## Claims -/

/-- C1: if one provider's layer chain raises (any combination of its
invocations failing), the other provider's chain still produces exactly
the same export entries, and the failure never escapes the module body as
a process-fatal error.  The AWS section's exports depend only on the
AWS-chain failure flags and the GCP section's only on the GCP-chain ones,
and `run` always returns `ok`. -/
theorem C1_chain_isolation (c : Config) (f g : FailureSpec)
    (hAws : awsAgrees f g) :
    (∃ xs, run c f = Except.ok xs) ∧ awsExports c f = awsExports c g ∧
      (gcpAgrees f g → gcpExports c f = gcpExports c g) := by
  obtain ⟨h1, h2, h3, h4⟩ := hAws
  refine ⟨⟨runList c f, rfl⟩, ?_, ?_⟩
  · unfold awsExports
    have hb : arcBlock c f (pyOrBool c.deploy_argocd)
        = arcBlock c g (pyOrBool c.deploy_argocd) := by
      rw [arcBlock_eq, arcBlock_eq, h1, h2, h3]
    have hb2 : aliBlock c f = aliBlock c g := by
      rw [aliBlock_eq, aliBlock_eq, h4]
    rw [hb, hb2]
  · rintro ⟨g1, g2, g3, g4, g5⟩
    unfold gcpExports
    have b1 : arcGcpBlock c f (pyOrBool c.deploy_argocd_gcp)
        = arcGcpBlock c g (pyOrBool c.deploy_argocd_gcp) := by
      rw [arcGcpBlock_eq, arcGcpBlock_eq, g1, g2, g3]
    have b2 : aliGcpBlock c f = aliGcpBlock c g := by
      rw [aliGcpBlock_eq, aliGcpBlock_eq, g4]
    have b3 : sharedGcpBlock c f = sharedGcpBlock c g := by
      rw [sharedGcpBlock_eq, sharedGcpBlock_eq, g5]
    rw [b1, b2, b3]

/-- Witness for C1: with everything enabled on both providers, a run in
which every GCP invocation fails still produces the very same AWS-section
exports as the failure-free run, and completes without a process-fatal
error. -/
theorem C1_chain_isolation_witness :
    (∃ xs, run cAll fGcpFail = Except.ok xs) ∧
      awsExports cAll fGcpFail = awsExports cAll noFail :=
  ⟨(C1_chain_isolation cAll fGcpFail noFail ⟨rfl, rfl, rfl, rfl⟩).1,
   (C1_chain_isolation cAll fGcpFail noFail ⟨rfl, rfl, rfl, rfl⟩).2.1⟩

/-- C2 counterexample: when the AWS helm (cluster bootstrap) layer raises,
the run publishes `arc_helm_deployed` for no layer, but the diagnostic
note it publishes is the chain-level `arc_deployment_note`; no export
named `arc_helm_deployment_note` (the claim's `<provider>_<layer>`
schema applied to the failing layer, whose success flag is
`arc_helm_deployed`) exists. -/
theorem C2_note_key_counterexample :
    raisesL cArcOnly fHelmFail .arcHelmL = true ∧
      "arc_helm_deployment_note" ∉ keysOf (runList cArcOnly fHelmFail) ∧
      "arc_deployment_note" ∈ keysOf (runList cArcOnly fHelmFail) := by
  decide

/-- C2 (amended): if a layer's `deploy()` invocation raises, its
`..._deployed` success-flag export is absent from the run, the enclosing
block's chain-level `..._deployment_note` diagnostic export is present,
and every previously completed layer's own exports — a function of the
configuration alone, hence untouched by the failure — still occur
contiguously inside the run's export list. -/
theorem C2_layer_failure_exports (c : Config) (f : FailureSpec) (l : Layer)
    (h : raisesL c f l = true) :
    deployedKey l ∉ keysOf (runList c f) ∧
      noteKey l ∈ keysOf (runList c f) ∧
      ∀ l', completedL c f l' = true → ownExports c l' <:+: runList c f :=
  ⟨deployed_not_mem_of_raises c f l h, note_mem_of_raises c f l h,
   fun l' h' => ownExports_infix_of_completed c f l' h'⟩

/-- Witness for C2 (amended), at the failing AWS helm layer: the infra
layer completed first and its exports survive. -/
theorem C2_layer_failure_exports_witness :
    "arc_helm_deployed" ∉ keysOf (runList cArcOnly fHelmFail) ∧
      "arc_deployment_note" ∈ keysOf (runList cArcOnly fHelmFail) ∧
      ownExports cArcOnly .arcInfraL <:+: runList cArcOnly fHelmFail := by
  obtain ⟨h1, h2, h3⟩ :=
    C2_layer_failure_exports cArcOnly fHelmFail .arcHelmL (by decide)
  exact ⟨h1, h2, h3 .arcInfraL (by decide)⟩

/-- C3 counterexample: with `cloud_provider=azure` (not one of aws, gcp,
both) and every deployment flag enabled, the program does not report any
configuration error — the module body completes normally and exports
exactly the four static entries. -/
theorem C3_unknown_provider_counterexample :
    (run cUnknownProv noFail).isOk = true ∧
      pyOrStr cUnknownProv.cloud_provider "aws" ∉
        (["aws", "gcp", "both"] : List String) ∧
      keysOf (runList cUnknownProv noFail) = topLevelKeys := by
  decide

/-- C3 (amended): an unknown provider-selection value is silently ignored:
neither provider branch matches, no layer is invoked, no resource is
declared, no error is raised, and the run exports only the static
entries. -/
theorem C3_unknown_provider_ignored (c : Config) (f : FailureSpec)
    (h : pyOrStr c.cloud_provider "aws" ∉ (["aws", "gcp", "both"] : List String)) :
    run c f = Except.ok (headExports c ++ [("summary", .str summaryText)]) ∧
      ∀ l, invokedL c f l = false := by
  simp only [List.mem_cons, List.not_mem_nil, or_false, not_or] at h
  obtain ⟨ha, hg, hb⟩ := h
  have h1 : ¬(pyOrStr c.cloud_provider "aws" = "aws" ∨
      pyOrStr c.cloud_provider "aws" = "both") := by tauto
  have h2 : ¬(pyOrStr c.cloud_provider "aws" = "gcp" ∨
      pyOrStr c.cloud_provider "aws" = "both") := by tauto
  have hA : providerAws c = false := by
    simp [providerAws]
    tauto
  have hG : providerGcp c = false := by
    simp [providerGcp]
    tauto
  constructor
  · unfold run runList awsExports gcpExports
    rw [if_neg h1, if_neg h2]
    simp
  · intro l
    cases l <;> simp [invokedL, hA, hG]

/-- Witness for C3 (amended) at the `azure` configuration. -/
theorem C3_unknown_provider_ignored_witness :
    run cUnknownProv noFail =
        Except.ok (headExports cUnknownProv ++ [("summary", .str summaryText)]) ∧
      ∀ l, invokedL cUnknownProv noFail l = false :=
  C3_unknown_provider_ignored cUnknownProv noFail (by decide)

/-- C4 counterexample: with the AWS ARC layer enabled and the required
`aws:region` key absent, the resulting configuration error does not
raise out of the run: the module body completes normally and the error
is downgraded to the same `arc_deployment_note` diagnostic export that a
provisioning failure produces. -/
theorem C4_config_error_counterexample :
    (run cArcNoRegion noFail).isOk = true ∧
      cArcNoRegion.aws_region = none ∧
      invokedL cArcNoRegion noFail .arcInfraL = true ∧
      "arc_deployment_note" ∈ keysOf (runList cArcNoRegion noFail) := by
  decide

/-- C4 (amended): a missing required configuration key raises inside the
layer's `deploy()` and is caught by the same layer-boundary
`except Exception` handler as a provisioning failure: the chain's
diagnostic note is exported, the success flag is absent, the process
completes, and the other provider's section is untouched by the value of
the missing key. -/
theorem C4_config_error_downgraded (c : Config) (f : FailureSpec)
    (hmiss : c.aws_region = none) (hinv : invokedL c f .arcInfraL = true) :
    noteKey .arcInfraL ∈ keysOf (runList c f) ∧
      deployedKey .arcInfraL ∉ keysOf (runList c f) ∧
      (∃ xs, run c f = Except.ok xs) ∧
      ∀ r, gcpExports { c with aws_region := r } f = gcpExports c f := by
  have hr : raisesL c f .arcInfraL = true := by
    simp [raisesL, hinv, hmiss]
  exact ⟨note_mem_of_raises c f _ hr, deployed_not_mem_of_raises c f _ hr,
    ⟨runList c f, rfl⟩, fun r => rfl⟩

/-- Witness for C4 (amended) at the region-less configuration. -/
theorem C4_config_error_downgraded_witness :
    "arc_deployment_note" ∈ keysOf (runList cArcNoRegion noFail) ∧
      "arc_infrastructure_deployed" ∉ keysOf (runList cArcNoRegion noFail) := by
  obtain ⟨h1, h2, _, _⟩ :=
    C4_config_error_downgraded cArcNoRegion noFail rfl (by decide)
  exact ⟨h1, h2⟩

/-- C5: a dependent layer whose parent layer is disabled is never invoked
and produces no export, whatever the failure behaviour; and in general
the ArgoCD layers are invoked only when both their own flag and their
parent chain's flag are true. -/
theorem C5_dependent_layer_gating (c : Config) (f : FailureSpec)
    (h1 : pyOrBool c.deploy_argocd = true) (h2 : pyOrBool c.deploy_arc = false) :
    invokedL c f .arcArgocdL = false ∧
      "arc_argocd_deployed" ∉ keysOf (runList c f) ∧
      "arc_runner_namespaces" ∉ keysOf (runList c f) ∧
      "arc_application_set_created" ∉ keysOf (runList c f) ∧
      (∀ c' f', invokedL c' f' .arcArgocdL = true →
        pyOrBool c'.deploy_argocd = true ∧ pyOrBool c'.deploy_arc = true) ∧
      (∀ c' f', invokedL c' f' .arcArgocdGcpL = true →
        pyOrBool c'.deploy_argocd_gcp = true ∧ pyOrBool c'.deploy_arc_gcp = true) := by
  have habs : ∀ k, k ∈ keysOf (awsExports c f) → k ∈ aliKeyPool := by
    intro k hk
    unfold awsExports at hk
    simp only [h2] at hk
    split_ifs at hk
    all_goals try rw [keysOf_append, List.mem_append] at hk
    all_goals try rcases hk with hk | hk
    all_goals first
      | exact aliBlock_keys_sub c f k hk
      | (exfalso; assumption)
      | simp [keysOf] at hk
  refine ⟨by simp [invokedL, h2], ?_, ?_, ?_, ?_, ?_⟩
  · intro hk
    rcases mem_run_cases c f _ hk with hh | hh | hh | hh
    · revert hh
      rw [keys_head]
      decide
    · exact absurd (habs _ hh) (by decide)
    · exact not_in_gcp_keys c f _ (by decide) (by decide) (by decide)
        (fun s => ne_of_take_ne _ _ (by decide) s)
        (fun s => ne_of_take_ne _ _ (by decide) s) hh
    · exact absurd hh (by decide)
  · intro hk
    rcases mem_run_cases c f _ hk with hh | hh | hh | hh
    · revert hh
      rw [keys_head]
      decide
    · exact absurd (habs _ hh) (by decide)
    · exact not_in_gcp_keys c f _ (by decide) (by decide) (by decide)
        (fun s => ne_of_take_ne _ _ (by decide) s)
        (fun s => ne_of_take_ne _ _ (by decide) s) hh
    · exact absurd hh (by decide)
  · intro hk
    rcases mem_run_cases c f _ hk with hh | hh | hh | hh
    · revert hh
      rw [keys_head]
      decide
    · exact absurd (habs _ hh) (by decide)
    · exact not_in_gcp_keys c f _ (by decide) (by decide) (by decide)
        (fun s => ne_of_take_ne _ _ (by decide) s)
        (fun s => ne_of_take_ne _ _ (by decide) s) hh
    · exact absurd hh (by decide)
  · intro c' f' h
    simp only [invokedL, Bool.and_eq_true] at h
    exact ⟨h.2, h.1.1.1.2⟩
  · intro c' f' h
    simp only [invokedL, Bool.and_eq_true] at h
    exact ⟨h.2, h.1.1.1.2⟩

/-- Witness for C5 at a configuration enabling only the dependent ArgoCD
layers. -/
theorem C5_dependent_layer_gating_witness :
    invokedL cDependentOnly noFail .arcArgocdL = false ∧
      "arc_argocd_deployed" ∉ keysOf (runList cDependentOnly noFail) := by
  obtain ⟨g1, g2, _, _, _, _⟩ :=
    C5_dependent_layer_gating cDependentOnly noFail rfl rfl
  exact ⟨g1, g2⟩

theorem aws_off (c : Config) (f : FailureSpec)
    (h1 : pyOrBool c.deploy_arc = false) (h2 : pyOrBool c.deploy_ali = false) :
    awsExports c f = [] := by
  unfold awsExports
  simp [h1, h2]

theorem gcp_off (c : Config) (f : FailureSpec)
    (h1 : pyOrBool c.deploy_arc_gcp = false) (h2 : pyOrBool c.deploy_ali_gcp = false) :
    gcpExports c f = [] := by
  unfold gcpExports
  simp [h1, h2]

/-- C6 counterexample: with `cloud_provider=both` and every deploy flag
false the run also exports `cloud_provider`, so the export key set is not
exactly the three keys the claim lists. -/
theorem C6_export_set_counterexample :
    "cloud_provider" ∈ keysOf (runList cBothAllOff noFail) ∧
      ¬((keysOf (runList cBothAllOff noFail)).toFinset =
        ({"infrastructure_components", "migration_status", "summary"} :
          Finset String)) := by
  decide

/-- C6 (amended): with `cloud_provider=both` and every deploy flag false,
the exported keys are exactly `migration_status`, `cloud_provider`,
`infrastructure_components` and `summary`, in order; in particular no
resource-identifier export is present. -/
theorem C6_all_flags_off_exports (c : Config) (f : FailureSpec)
    (hp : pyOrStr c.cloud_provider "aws" = "both")
    (h1 : pyOrBool c.deploy_arc = false) (h2 : pyOrBool c.deploy_ali = false)
    (h3 : pyOrBool c.deploy_arc_gcp = false)
    (h4 : pyOrBool c.deploy_ali_gcp = false) :
    keysOf (runList c f) =
      ["migration_status", "cloud_provider", "infrastructure_components",
       "summary"] := by
  unfold runList
  rw [aws_off c f h1 h2, gcp_off c f h3 h4]
  simp [keysOf, headExports]

/-- Witness for C6 (amended) at the all-flags-false configuration. -/
theorem C6_all_flags_off_exports_witness :
    keysOf (runList cBothAllOff noFail) =
      ["migration_status", "cloud_provider", "infrastructure_components",
       "summary"] :=
  C6_all_flags_off_exports cBothAllOff noFail rfl rfl rfl rfl rfl

theorem disj_pools :
    ∀ k ∈ arcGcpKeyPool ++ sharedGcpKeyPool ++ aliGcpKeyPool,
      k ∉ arcKeyPool ++ aliKeyPool := by
  decide

/-- C7: with `cloud_provider=both`, whatever the failure behaviour, the
set of keys the AWS section exports and the set of keys the GCP section
exports are disjoint. -/
theorem C7_provider_key_disjointness (c : Config) (f : FailureSpec)
    (hp : pyOrStr c.cloud_provider "aws" = "both") :
    List.Disjoint (keysOf (awsExports c f)) (keysOf (gcpExports c f)) := by
  intro k hka hkg
  have ha := awsExports_keys_sub c f k hka
  have ha' : k ∈ arcKeyPool ++ aliKeyPool := by
    rcases ha with h | h <;> simp [List.mem_append, h]
  rcases gcpExports_keys_shape c f k hkg with hg | hg | hg | ⟨s, hs | hs⟩
  · exact disj_pools k (by simp [List.mem_append, hg]) ha'
  · exact disj_pools k (by simp [List.mem_append, hg]) ha'
  · exact disj_pools k (by simp [List.mem_append, hg]) ha'
  · exact preNotMem "ali_gcp_prod_vpcs_" _ (by decide) s (hs ▸ ha')
  · exact preNotMem "ali_gcp_prod_subnets_" _ (by decide) s (hs ▸ ha')

/-- Witness for C7 at the everything-enabled two-provider configuration. -/
theorem C7_provider_key_disjointness_witness :
    List.Disjoint (keysOf (awsExports cAll noFail))
      (keysOf (gcpExports cAll noFail)) :=
  C7_provider_key_disjointness cAll noFail rfl

/-- C10: on the empty configuration the provider selection defaults to
`aws`, every deployment flag defaults to false, no layer is invoked
whatever the backend would do, and the run exports only the four static
entries. -/
theorem C10_empty_config_defaults (f : FailureSpec) :
    pyOrStr cEmpty.cloud_provider "aws" = "aws" ∧
      providerAws cEmpty = true ∧ providerGcp cEmpty = false ∧
      pyOrBool cEmpty.deploy_arc = false ∧ pyOrBool cEmpty.deploy_ali = false ∧
      pyOrBool cEmpty.deploy_argocd = false ∧
      pyOrBool cEmpty.deploy_arc_gcp = false ∧
      pyOrBool cEmpty.deploy_ali_gcp = false ∧
      pyOrBool cEmpty.deploy_argocd_gcp = false ∧
      (∀ l, invokedL cEmpty f l = false) ∧
      keysOf (runList cEmpty f) =
        ["migration_status", "cloud_provider", "infrastructure_components",
         "summary"] := by
  refine ⟨rfl, rfl, rfl, rfl, rfl, rfl, rfl, rfl, rfl, ?_, ?_⟩
  · intro l
    cases l <;>
      simp [invokedL, cEmpty, pyOrBool, providerAws, providerGcp]
  · unfold runList
    rw [aws_off cEmpty f rfl rfl, gcp_off cEmpty f rfl rfl]
    simp [keysOf, headExports]

/-! ## Global key uniqueness (C8) -/

theorem strAppendAssoc (a b c : String) : a ++ b ++ c = a ++ (b ++ c) := by
  cases a
  cases b
  cases c
  exact congrArg String.mk (List.append_assoc _ _ _)

theorem exPre (p k : String) (h : p ++ String.drop k p.length = k) :
    ∃ t, k = p ++ t :=
  ⟨_, h.symm⟩

theorem arcPool_shape : ∀ k ∈ arcKeyPool, ∃ t, k = "arc_" ++ t := by
  intro k hk
  fin_cases hk <;> exact exPre _ _ (by decide)

theorem aliPool_shape : ∀ k ∈ aliKeyPool, ∃ t, k = "ali_" ++ t := by
  intro k hk
  fin_cases hk <;> exact exPre _ _ (by decide)

theorem arcGcpPool_shape : ∀ k ∈ arcGcpKeyPool, ∃ t, k = "arc_" ++ t := by
  intro k hk
  fin_cases hk <;> exact exPre _ _ (by decide)

theorem aliGcpPool_shape : ∀ k ∈ aliGcpKeyPool, ∃ t, k = "ali_" ++ t := by
  intro k hk
  fin_cases hk <;> exact exPre _ _ (by decide)

theorem sharedGcpPool_shape : ∀ k ∈ sharedGcpKeyPool, ∃ t, k = "shared_gcp_" ++ t := by
  intro k hk
  fin_cases hk <;> exact exPre _ _ (by decide)

theorem arcBlock_keys_nodup (c : Config) (f : FailureSpec) (da : Bool) :
    (keysOf (arcBlock c f da)).Nodup := by
  rw [arcBlock_eq]
  split_ifs <;> simp [keysOf, ownExports, arcNoteE]

theorem aliBlock_keys_nodup (c : Config) (f : FailureSpec) :
    (keysOf (aliBlock c f)).Nodup := by
  rw [aliBlock_eq]
  split_ifs <;> simp [keysOf, ownExports, aliNoteE] <;> split_ifs <;> simp

theorem arcGcpBlock_keys_nodup (c : Config) (f : FailureSpec) (da : Bool) :
    (keysOf (arcGcpBlock c f da)).Nodup := by
  rw [arcGcpBlock_eq]
  split_ifs <;>
    simp [keysOf, ownExports, arc_infra_gcp.outputsList, arcGcpNoteE]

theorem sharedGcpBlock_keys_nodup (c : Config) (f : FailureSpec) :
    (keysOf (sharedGcpBlock c f)).Nodup := by
  rw [sharedGcpBlock_eq]
  split_ifs <;> simp [keysOf, ownExports, sharedGcpNoteE]

theorem keys_own_aliGcp (c : Config) :
    keysOf (ownExports c .aliGcpL) =
      (pyOrList c.gcp_vpc_suffixes ["I", "II"]).map
          (fun s => "ali_gcp_prod_vpcs_" ++ s)
        ++ (pyOrList c.gcp_vpc_suffixes ["I", "II"]).map
          (fun s => "ali_gcp_prod_subnets_" ++ s)
        ++ ["ali_gcp_canary_vpc", "ali_gcp_canary_subnet",
            "ali_gcp_github_actions_sa_email", "ali_gcp_workload_identity_pool",
            "ali_gcp_workload_identity_provider", "ali_gcp_autoscaler_sa_email",
            "ali_gcp_artifact_registry_sa_email", "ali_gcp_storage_sa_email",
            "ali_gcp_functions_sa_email", "ali_gcp_sccache_bucket",
            "ali_gcp_gcp_project", "ali_gcp_gcp_region",
            "ali_gcp_ali_prod_environment", "ali_gcp_ali_canary_environment",
            "ali_gcp_infrastructure_deployed"] := by
  simp only [keysOf, ownExports, List.map_append, List.map_map]
  rfl

theorem aliGcpBlock_keys_nodup (c : Config) (f : FailureSpec)
    (hs : (pyOrList c.gcp_vpc_suffixes ["I", "II"]).Nodup) :
    (keysOf (aliGcpBlock c f)).Nodup := by
  rw [aliGcpBlock_eq]
  split_ifs
  · simp [keysOf, aliGcpNoteE]
  rw [keys_own_aliGcp]
  have inj1 : Function.Injective (fun s => "ali_gcp_prod_vpcs_" ++ s) :=
    fun a b h => strAppendLeftCancel h
  have inj2 : Function.Injective (fun s => "ali_gcp_prod_subnets_" ++ s) :=
    fun a b h => strAppendLeftCancel h
  refine List.Nodup.append
    (List.Nodup.append (hs.map inj1) (hs.map inj2) ?_) (by decide) ?_
  · intro a h1 h2
    rcases List.mem_map.mp h1 with ⟨s, _, rfl⟩
    rcases List.mem_map.mp h2 with ⟨t, _, ht⟩
    exact appendTwoNe "ali_gcp_prod_subnets_" "ali_gcp_prod_vpcs_" 18
      (by decide) (by decide) (by decide) t s ht
  · intro a h1 h2
    rw [List.mem_append] at h1
    rcases h1 with h1 | h1 <;> rcases List.mem_map.mp h1 with ⟨s, _, rfl⟩
    · exact preNotMem "ali_gcp_prod_vpcs_" _ (by decide) s h2
    · exact preNotMem "ali_gcp_prod_subnets_" _ (by decide) s h2

theorem aws_pools_disjoint : ∀ k ∈ arcKeyPool, k ∉ aliKeyPool := by
  decide

theorem awsKeys_nodup (c : Config) (f : FailureSpec) :
    (keysOf (awsExports c f)).Nodup := by
  unfold awsExports
  split_ifs
  · rw [keysOf_append]
    refine List.Nodup.append (arcBlock_keys_nodup c f _) (aliBlock_keys_nodup c f) ?_
    intro a ha hb
    exact aws_pools_disjoint a (arcBlock_keys_sub c f _ a ha)
      (aliBlock_keys_sub c f a hb)
  · rw [List.append_nil]
    exact arcBlock_keys_nodup c f _
  · rw [List.nil_append]
    exact aliBlock_keys_nodup c f
  · simp [keysOf]
  · simp [keysOf]

theorem gcpArc_pools_disjoint : ∀ k ∈ arcGcpKeyPool, k ∉ aliGcpKeyPool := by
  decide

theorem gcpArcShared_pools_disjoint : ∀ k ∈ arcGcpKeyPool, k ∉ sharedGcpKeyPool := by
  decide

theorem gcpAliShared_pools_disjoint : ∀ k ∈ aliGcpKeyPool, k ∉ sharedGcpKeyPool := by
  decide

theorem arcGcp_aliGcp_keys_disjoint (c : Config) (f : FailureSpec) (da : Bool) :
    ∀ a ∈ keysOf (arcGcpBlock c f da), a ∉ keysOf (aliGcpBlock c f) := by
  intro a ha hb
  have hpa := arcGcpBlock_keys_sub c f da a ha
  rcases aliGcpBlock_keys_shape c f a hb with hp | ⟨s, hgs | hgs⟩
  · exact gcpArc_pools_disjoint a hpa hp
  · exact preNotMem "ali_gcp_prod_vpcs_" _ (by decide) s (hgs ▸ hpa)
  · exact preNotMem "ali_gcp_prod_subnets_" _ (by decide) s (hgs ▸ hpa)

theorem arcGcp_shared_keys_disjoint (c : Config) (f : FailureSpec) (da : Bool) :
    ∀ a ∈ keysOf (arcGcpBlock c f da), a ∉ keysOf (sharedGcpBlock c f) :=
  fun a ha hb => gcpArcShared_pools_disjoint a (arcGcpBlock_keys_sub c f da a ha)
    (sharedGcpBlock_keys_sub c f a hb)

theorem aliGcp_shared_keys_disjoint (c : Config) (f : FailureSpec) :
    ∀ a ∈ keysOf (aliGcpBlock c f), a ∉ keysOf (sharedGcpBlock c f) := by
  intro a ha hb
  have hsh := sharedGcpBlock_keys_sub c f a hb
  rcases aliGcpBlock_keys_shape c f a ha with hp | ⟨s, hgs | hgs⟩
  · exact gcpAliShared_pools_disjoint a hp hsh
  · exact preNotMem "ali_gcp_prod_vpcs_" _ (by decide) s (hgs ▸ hsh)
  · exact preNotMem "ali_gcp_prod_subnets_" _ (by decide) s (hgs ▸ hsh)

theorem gcpKeys_nodup (c : Config) (f : FailureSpec)
    (hs : (pyOrList c.gcp_vpc_suffixes ["I", "II"]).Nodup) :
    (keysOf (gcpExports c f)).Nodup := by
  have hA := arcGcpBlock_keys_nodup c f (pyOrBool c.deploy_argocd_gcp)
  have hB := aliGcpBlock_keys_nodup c f hs
  have hC := sharedGcpBlock_keys_nodup c f
  have dAB := arcGcp_aliGcp_keys_disjoint c f (pyOrBool c.deploy_argocd_gcp)
  have dAC := arcGcp_shared_keys_disjoint c f (pyOrBool c.deploy_argocd_gcp)
  have dBC := aliGcp_shared_keys_disjoint c f
  unfold gcpExports
  split_ifs <;>
    (try simp only [List.append_nil, List.nil_append, keysOf_append]) <;>
    first
      | exact List.Nodup.append (List.Nodup.append hA hB dAB) hC (by
          intro a haa hc
          rcases List.mem_append.mp haa with hmem | hmem
          · exact dAC a hmem hc
          · exact dBC a hmem hc)
      | exact List.Nodup.append hA hB dAB
      | exact List.Nodup.append hA hC dAC
      | exact List.Nodup.append hB hC dBC
      | exact hA
      | exact hB
      | exact hC
      | exact List.nodup_nil

/-- C8 counterexample: the run's very first export key,
`migration_status`, has no `<provider>_<layer>_` prefix (no published key
starts with `aws_` or `gcp_` at all). -/
theorem C8_key_shape_counterexample :
    "migration_status" ∈ keysOf (runList cEmpty noFail) ∧
      ¬providerLayerShaped "migration_status" := by
  constructor
  · decide
  · rintro ⟨p, hp, t, ht⟩
    simp only [List.mem_cons, List.not_mem_nil, or_false] at hp
    rcases hp with rfl | rfl
    · exact ne_of_take_ne _ _ (by decide) t ht.symm
    · exact ne_of_take_ne _ _ (by decide) t ht.symm

/-- C8 (amended): every layer-published key carries its chain's prefix
(`arc_`, `ali_` or `shared_gcp_`; the GCP chains write `arc_gcp_` /
`ali_gcp_`, layer group first), the four orchestrator keys are
unprefixed, and — whenever the configured GCP VPC suffix list is
duplicate-free — the keys of one run are pairwise distinct, with no
runtime collision check anywhere in the code. -/
theorem C8_key_uniqueness (c : Config) (f : FailureSpec)
    (hs : (pyOrList c.gcp_vpc_suffixes ["I", "II"]).Nodup) :
    (keysOf (runList c f)).Nodup ∧
      ∀ k ∈ keysOf (runList c f), k ∈ topLevelKeys ∨
        ∃ t, k = "arc_" ++ t ∨ k = "ali_" ++ t ∨ k = "shared_gcp_" ++ t := by
  constructor
  · unfold runList
    rw [keysOf_append, keysOf_append, keysOf_append]
    refine List.Nodup.append (List.Nodup.append
      (List.Nodup.append ?_ (awsKeys_nodup c f) ?_)
      (gcpKeys_nodup c f hs) ?_) ?_ ?_
    · rw [keys_head]
      decide
    · intro a ha hb
      have hp := awsExports_keys_sub c f a hb
      rw [keys_head] at ha
      fin_cases ha <;> revert hp <;> decide
    · intro a ha hb
      rw [List.mem_append] at ha
      rcases ha with ha | ha
      · rw [keys_head] at ha
        fin_cases ha <;>
          exact not_in_gcp_keys c f _ (by decide) (by decide) (by decide)
            (fun s => ne_of_take_ne _ _ (by decide) s)
            (fun s => ne_of_take_ne _ _ (by decide) s) hb
      · have hp := awsExports_keys_sub c f a ha
        have ha' : a ∈ arcKeyPool ++ aliKeyPool := by
          rcases hp with hx | hx <;> simp [List.mem_append, hx]
        rcases gcpExports_keys_shape c f a hb with hg | hg | hg | ⟨s, hgs | hgs⟩
        · exact disj_pools a (by simp [List.mem_append, hg]) ha'
        · exact disj_pools a (by simp [List.mem_append, hg]) ha'
        · exact disj_pools a (by simp [List.mem_append, hg]) ha'
        · exact preNotMem "ali_gcp_prod_vpcs_" _ (by decide) s (hgs ▸ ha')
        · exact preNotMem "ali_gcp_prod_subnets_" _ (by decide) s (hgs ▸ ha')
    · simp [keysOf]
    · intro a ha hb
      simp only [keysOf, List.map_cons, List.map_nil, List.mem_singleton] at hb
      subst hb
      rw [List.mem_append] at ha
      rcases ha with ha | ha
      · rw [List.mem_append] at ha
        rcases ha with ha | ha
        · rw [keys_head] at ha
          revert ha
          decide
        · rcases awsExports_keys_sub c f _ ha with hx | hx <;> revert hx <;> decide
      · rcases gcpExports_keys_shape c f _ ha with hg | hg | hg | ⟨s, hgs | hgs⟩
        · revert hg
          decide
        · revert hg
          decide
        · revert hg
          decide
        · exact ne_of_take_ne _ _ (by decide) s hgs.symm
        · exact ne_of_take_ne _ _ (by decide) s hgs.symm
  · intro k hk
    rcases mem_run_cases c f k hk with hh | hh | hh | hh
    · rw [keys_head] at hh
      fin_cases hh <;> exact Or.inl (by decide)
    · rcases awsExports_keys_sub c f k hh with h | h
      · rcases arcPool_shape k h with ⟨t, ht⟩
        exact Or.inr ⟨t, Or.inl ht⟩
      · rcases aliPool_shape k h with ⟨t, ht⟩
        exact Or.inr ⟨t, Or.inr (Or.inl ht)⟩
    · rcases gcpExports_keys_shape c f k hh with hg | hg | hg | ⟨s, hgs | hgs⟩
      · rcases arcGcpPool_shape k hg with ⟨t, ht⟩
        exact Or.inr ⟨t, Or.inl ht⟩
      · rcases sharedGcpPool_shape k hg with ⟨t, ht⟩
        exact Or.inr ⟨t, Or.inr (Or.inr ht)⟩
      · rcases aliGcpPool_shape k hg with ⟨t, ht⟩
        exact Or.inr ⟨t, Or.inr (Or.inl ht)⟩
      · refine Or.inr ⟨"gcp_prod_vpcs_" ++ s, Or.inr (Or.inl ?_)⟩
        have hlit : "ali_gcp_prod_vpcs_" = "ali_" ++ "gcp_prod_vpcs_" := by decide
        rw [hgs, hlit, strAppendAssoc]
      · refine Or.inr ⟨"gcp_prod_subnets_" ++ s, Or.inr (Or.inl ?_)⟩
        have hlit : "ali_gcp_prod_subnets_" = "ali_" ++ "gcp_prod_subnets_" := by
          decide
        rw [hgs, hlit, strAppendAssoc]
    · exact Or.inl (by simp [topLevelKeys, hh])

/-- Witness for C8 (amended) at the everything-enabled configuration,
whose (default) GCP suffix list is duplicate-free. -/
theorem C8_key_uniqueness_witness :
    (keysOf (runList cAll noFail)).Nodup ∧
      ∀ k ∈ keysOf (runList cAll noFail), k ∈ topLevelKeys ∨
        ∃ t, k = "arc_" ++ t ∨ k = "ali_" ++ t ∨ k = "shared_gcp_" ++ t :=
  C8_key_uniqueness cAll noFail (by decide)

end CiInfra
